import Mathlib

/-!
Verification of the FDA medical-device research assistant
(`FDA_tool.py`, `agents.py`).

The development shallowly embeds the Python source.  Python values that can
flow through the formatters (JSON-decoded records) are modelled by `PyVal`;
Python operations that can raise (`[]`-subscripting, `.get` on a non-dict,
`len`, `str.join`, slicing followed by `+`) are modelled in `Except String`,
with the error string standing for the exception.  Code that Python cannot
fail in (f-string interpolation, truthiness tests) is modelled by total
functions.
-/


/-! Definitions. -/

namespace Py

/-- A JSON-like Python value: the shapes that reach the formatters. -/
inductive PyVal where
  | none
  | bool (b : Bool)
  | int (n : Int)
  | str (s : String)
  | list (xs : List PyVal)
  | dict (fs : List (String × PyVal))

/-- Python truthiness (`bool(v)`). -/
def truthy : PyVal → Bool
  | .none => false
  | .bool b => b
  | .int n => n != 0
  | .str s => s != ""
  | .list xs => !xs.isEmpty
  | .dict fs => !fs.isEmpty

/-- The apostrophe character used by Python `repr` for strings. -/
def qc : String := String.singleton (Char.ofNat 39)

mutual

/-- Python `repr(v)` (containers render their elements with `repr`). -/
def pyRepr : PyVal → String
  | .none => "None"
  | .bool true => "True"
  | .bool false => "False"
  | .int n => toString n
  | .str s => qc ++ s ++ qc
  | .list xs => "[" ++ pyReprList xs ++ "]"
  | .dict fs => "\x7b" ++ pyReprDict fs ++ "\x7d"

def pyReprList : List PyVal → String
  | [] => ""
  | [v] => pyRepr v
  | v :: rest => pyRepr v ++ ", " ++ pyReprList rest

def pyReprDict : List (String × PyVal) → String
  | [] => ""
  | [(k, v)] => qc ++ k ++ qc ++ ": " ++ pyRepr v
  | (k, v) :: rest => qc ++ k ++ qc ++ ": " ++ pyRepr v ++ ", " ++ pyReprDict rest

end

/-- Python `str(v)` as used by f-string interpolation. -/
def pyStr : PyVal → String
  | .str s => s
  | v => pyRepr v

/-- Python `str.strip()` (no arguments): drop surrounding whitespace.
Defined over the character list so that it is structurally recursive and
kernel-reducible (the library `String.trim` is not). -/
def pyStrip (s : String) : String :=
  ⟨((s.data.dropWhile Char.isWhitespace).reverse.dropWhile
      Char.isWhitespace).reverse⟩

/-- Python `str.lower()` (kernel-reducible counterpart of
`String.toLower`). -/
def pyLower (s : String) : String := ⟨s.data.map Char.toLower⟩

/-- Python `str.upper()` (kernel-reducible counterpart of
`String.toUpper`). -/
def pyUpper (s : String) : String := ⟨s.data.map Char.toUpper⟩

/-- Python `sep.join(list_of_str)` (kernel-reducible counterpart of
`String.intercalate`). -/
def joinSep (sep : String) : List String → String
  | [] => ""
  | [x] => x
  | x :: rest => x ++ sep ++ joinSep sep rest

/-- Helper of `pyWords`: accumulate the current (reversed) word while
scanning. -/
def wordsAux (cur : List Char) : List Char → List (List Char)
  | [] => if cur.isEmpty then [] else [cur.reverse]
  | c :: cs =>
    if c.isWhitespace then
      if cur.isEmpty then wordsAux [] cs
      else cur.reverse :: wordsAux [] cs
    else wordsAux (c :: cur) cs

/-- Whether the pattern is a leading segment of the character list. -/
def begins : List Char → List Char → Bool
  | [], _ => true
  | _ :: _, [] => false
  | p :: ps, c :: cs => p == c && begins ps cs

/-- Scan every suffix for the pattern. -/
def substrAux (pat : List Char) : List Char → Bool
  | [] => begins pat []
  | c :: cs => begins pat (c :: cs) || substrAux pat cs

/-- The Python substring test `pat in s`. -/
def hasSubstr (s pat : String) : Bool := substrAux pat.data s.data

/-- First-match association-list lookup, as in a Python dict (keys unique). -/
def dictLookup : List (String × PyVal) → String → Option PyVal
  | [], _ => Option.none
  | (k, v) :: rest, key => if k == key then some v else dictLookup rest key

/-- Key lookup on any value; `Option.none` when the value is not a dict or
the key is absent (used only in theorem statements, never as code). -/
def lookupField (v : PyVal) (key : String) : Option PyVal :=
  match v with
  | .dict fs => dictLookup fs key
  | _ => Option.none

/-- Python `key in v` for a string key. -/
def pyIn (key : String) (v : PyVal) : Except String Bool :=
  match v with
  | .dict fs => .ok (fs.any (fun kv => kv.1 == key))
  | .list xs => .ok (xs.any (fun x => match x with | .str s => s == key | _ => false))
  | .str s => .ok (hasSubstr s key)
  | _ => .error "TypeError: argument is not iterable"

/-- Python `v.get(key, default)`: only dicts have `.get`. -/
def pyGet (v : PyVal) (key : String) (default : PyVal) : Except String PyVal :=
  match v with
  | .dict fs => .ok ((dictLookup fs key).getD default)
  | _ => .error "AttributeError: object has no attribute get"

/-- Python `v[key]` for a string key. -/
def pyKey (v : PyVal) (key : String) : Except String PyVal :=
  match v with
  | .dict fs =>
    match dictLookup fs key with
    | some w => .ok w
    | Option.none => .error ("KeyError: " ++ key)
  | _ => .error "TypeError: value is not subscriptable by a string"

/-- Python `v[i]` for a non-negative index. -/
def pyIdx (v : PyVal) (i : Nat) : Except String PyVal :=
  match v with
  | .list xs =>
    match xs.get? i with
    | some x => .ok x
    | Option.none => .error "IndexError: list index out of range"
  | .str s =>
    match s.data.get? i with
    | some c => .ok (.str (String.singleton c))
    | Option.none => .error "IndexError: string index out of range"
  | _ => .error "TypeError: value is not subscriptable"

/-- Python `len(v)`. -/
def pyLen (v : PyVal) : Except String Nat :=
  match v with
  | .str s => .ok s.length
  | .list xs => .ok xs.length
  | .dict fs => .ok fs.length
  | _ => .error "TypeError: object has no len"

/-- Python `v[:n]`. -/
def pySlice (v : PyVal) (n : Nat) : Except String PyVal :=
  match v with
  | .str s => .ok (.str ⟨s.data.take n⟩)
  | .list xs => .ok (.list (xs.take n))
  | _ => .error "TypeError: value does not support slicing"

/-- Python `v + "..."` (applied after a slice when truncating). -/
def pyAddDots (v : PyVal) : Except String PyVal :=
  match v with
  | .str s => .ok (.str (s ++ "..."))
  | _ => .error "TypeError: can only concatenate str to str"

/-- Collect a list of `PyVal`s that must all be strings (for `str.join`). -/
def asStrList : List PyVal → Except String (List String)
  | [] => .ok []
  | .str s :: rest => do
    let r ← asStrList rest
    .ok (s :: r)
  | _ :: _ => .error "TypeError: sequence item is not a str instance"

/-- Python `sep.join(v)`. -/
def pyJoin (sep : String) (v : PyVal) : Except String String :=
  match v with
  | .list xs => do
    let ss ← asStrList xs
    .ok (joinSep sep ss)
  | .str s => .ok (joinSep sep (s.data.map String.singleton))
  | _ => .error "TypeError: can only join an iterable"

/-- Python iteration `for x in v` (a str yields its characters, a dict its
keys). -/
def pyIter (v : PyVal) : Except String (List PyVal) :=
  match v with
  | .list xs => .ok xs
  | .str s => .ok (s.data.map (fun c => .str (String.singleton c)))
  | .dict fs => .ok (fs.map (fun kv => .str kv.1))
  | _ => .error "TypeError: object is not iterable"

mutual

/-- Python `==` on the values we model (cross-type numeric equality between
`bool` and `int` is not modelled; no formatter compares such values). -/
def pyEq : PyVal → PyVal → Bool
  | .none, .none => true
  | .bool a, .bool b => a == b
  | .int a, .int b => a == b
  | .str a, .str b => a == b
  | .list a, .list b => pyEqList a b
  | .dict a, .dict b => pyEqDict a b
  | _, _ => false

def pyEqList : List PyVal → List PyVal → Bool
  | [], [] => true
  | a :: as, b :: bs => pyEq a b && pyEqList as bs
  | _, _ => false

def pyEqDict : List (String × PyVal) → List (String × PyVal) → Bool
  | [], [] => true
  | (k, v) :: as, (l, w) :: bs => k == l && pyEq v w && pyEqDict as bs
  | _, _ => false

end

end Py

namespace FDA

open Py

/-- Python `str.split()` with no separator: split on whitespace runs,
discarding empty pieces. -/
def pySplit (s : String) : List String :=
  (wordsAux [] s.data).map (fun l => ⟨l⟩)

/-- `FDAMedicalDeviceTool._sanitize_query` (FDA_tool.py lines 133-155). -/
def sanitizeQuery (query database : String) : String :=
  let query := pyStrip query
  if query = "" then "device"
  else if (pySplit query).length = 1 then query
  else if database = "510k" then "device_name:" ++ query
  else if database = "recall" then "product_description:" ++ query
  else if database = "event" then "device.brand_name:" ++ query
  else if database = "pma" then query
  else query

/-- The ordered field probe of the `for` loop in `_get_applicant_name`:
`if field in item and item[field]: return item[field]`. -/
def probeFields (item : PyVal) : List String → Except String PyVal
  | [] => .ok (.str "Unknown Manufacturer")
  | f :: rest => do
    let b ← pyIn f item
    if b then do
      let v ← pyKey item f
      if truthy v then .ok v else probeFields item rest
    else probeFields item rest

/-- `FDAMedicalDeviceTool._get_applicant_name` (FDA_tool.py lines 422-428). -/
def getApplicantName (item : PyVal) : Except String PyVal :=
  probeFields item ["applicant", "owner_operator", "manufacturer"]

/-- The predicate-device resolution of `_format_510k_results`
(FDA_tool.py lines 261-266). -/
def predicatePart510k (item : PyVal) : Except String String := do
  let b ← pyIn "predicates" item
  if b then do
    let preds ← pyKey item "predicates"
    if truthy preds then do
      let p0 ← pyIdx preds 0
      let predicateK ← pyGet p0 "k_number" (.str "")
      let predicateName ← pyGet p0 "device_name" (.str "")
      if truthy predicateK && truthy predicateName then
        .ok ("K" ++ pyStr predicateK ++ " - " ++ pyStr predicateName)
      else .ok "Not specified"
    else .ok "Not specified"
  else .ok "Not specified"

/-- The optional summary block of `_format_510k_results`
(FDA_tool.py lines 276-280). -/
def summaryPart510k (item : PyVal) : Except String String := do
  let b ← pyIn "summary" item
  if b then do
    let sv ← pyKey item "summary"
    if truthy sv then do
      let l ← pyLen sv
      let sv2 ← if 300 < l then do
          let sl ← pySlice sv 300
          pyAddDots sl
        else .ok sv
      .ok ("**Summary:** " ++ pyStr sv2 ++ "\n\n")
    else .ok ""
  else .ok ""

/-- One record of `_format_510k_results` (FDA_tool.py lines 252-282). -/
def format510kItem (item : PyVal) : Except String String := do
  let deviceName ← pyGet item "device_name" (.str "Unknown Device")
  let decisionDate ← pyGet item "decision_date" (.str "Unknown Date")
  let manufacturer ← getApplicantName item
  let kNumber ← pyGet item "k_number" (.str "Unknown")
  let productCode ← pyGet item "product_code" (.str "Unknown")
  let deviceClass ← pyGet item "device_class" (.str "Unknown")
  let predicate ← predicatePart510k item
  let summaryPart ← summaryPart510k item
  .ok ("### " ++ pyStr deviceName ++ " (K" ++ pyStr kNumber ++ ")\n"
    ++ "- **Manufacturer:** " ++ pyStr manufacturer ++ "\n"
    ++ "- **Clearance Date:** " ++ pyStr decisionDate ++ "\n"
    ++ "- **Product Code:** " ++ pyStr productCode ++ "\n"
    ++ "- **Device Class:** " ++ pyStr deviceClass ++ "\n"
    ++ "- **Predicate Device:** " ++ predicate ++ "\n\n"
    ++ summaryPart
    ++ "---\n\n")

/-- The nested `openfda` device-name extraction of `_format_pma_results`
(FDA_tool.py lines 291-293): the guard tests presence and truthiness only,
then subscripts with `[0]`. -/
def devicePartPma (item : PyVal) : Except String String := do
  let b ← pyIn "openfda" item
  if b then do
    let ofda ← pyKey item "openfda"
    let b2 ← pyIn "device_name" ofda
    if b2 then do
      let dn ← pyKey ofda "device_name"
      if truthy dn then do
        let d0 ← pyIdx dn 0
        .ok (pyStr d0)
      else .ok "Unknown Device"
    else .ok "Unknown Device"
  else .ok "Unknown Device"

/-- The optional expedited-review line of `_format_pma_results`
(FDA_tool.py lines 306-308). -/
def expeditedPartPma (item : PyVal) : Except String String := do
  let b ← pyIn "expedited_review_flag" item
  if b then do
    let ev ← pyKey item "expedited_review_flag"
    .ok ("- **Expedited Review:** " ++ (if truthy ev then "Yes" else "No") ++ "\n")
  else .ok ""

/-- One record of `_format_pma_results` (FDA_tool.py lines 289-310). -/
def formatPmaItem (item : PyVal) : Except String String := do
  let deviceName ← devicePartPma item
  let approvalDate ← pyGet item "approval_date" (.str "Unknown Date")
  let applicant ← pyGet item "applicant" (.str "Unknown Manufacturer")
  let pmaNumber ← pyGet item "pma_number" (.str "Unknown")
  let productCode ← pyGet item "product_code" (.str "Unknown")
  let expeditedPart ← expeditedPartPma item
  .ok ("### " ++ deviceName ++ " (" ++ pyStr pmaNumber ++ ")\n"
    ++ "- **Manufacturer:** " ++ pyStr applicant ++ "\n"
    ++ "- **Approval Date:** " ++ pyStr approvalDate ++ "\n"
    ++ "- **Product Code:** " ++ pyStr productCode ++ "\n"
    ++ expeditedPart
    ++ "\n---\n\n")

/-- The optional voluntary-vs-mandated line of `_format_recall_results`
(FDA_tool.py lines 331-333). -/
def vmPartRecall (item : PyVal) : Except String String := do
  let b ← pyIn "voluntary_mandated" item
  if b then do
    let v ← pyKey item "voluntary_mandated"
    .ok ("- **Type:** " ++ pyStr v ++ "\n")
  else .ok ""

/-- The optional status line of `_format_recall_results`
(FDA_tool.py lines 336-338). -/
def statusPartRecall (item : PyVal) : Except String String := do
  let b ← pyIn "status" item
  if b then do
    let s ← pyKey item "status"
    .ok ("- **Status:** " ++ pyStr s ++ "\n")
  else .ok ""

/-- One record of `_format_recall_results` (FDA_tool.py lines 317-340). -/
def formatRecallItem (item : PyVal) : Except String String := do
  let product ← pyGet item "product_description" (.str "Unknown Product")
  let reason ← pyGet item "reason_for_recall" (.str "Unknown Reason")
  let date ← pyGet item "recall_initiation_date" (.str "Unknown Date")
  let manufacturer ← pyGet item "recalling_firm" (.str "Unknown Manufacturer")
  let classification ← pyGet item "classification" (.str "Unknown")
  let vmPart ← vmPartRecall item
  let statusPart ← statusPartRecall item
  .ok ("### " ++ pyStr product ++ "\n"
    ++ "- **Manufacturer:** " ++ pyStr manufacturer ++ "\n"
    ++ "- **Date Initiated:** " ++ pyStr date ++ "\n"
    ++ "- **Classification:** " ++ pyStr classification ++ "\n"
    ++ "- **Reason for Recall:** " ++ pyStr reason ++ "\n"
    ++ vmPart
    ++ statusPart
    ++ "\n---\n\n")

/-- Python `v == "D"`: true exactly for the string `"D"` (no non-string
value we model compares equal to a string). -/
def isStrD : PyVal → Bool
  | .str s => s == "D"
  | _ => false

/-- The body of one iteration of the `for text_entry in item["mdr_text"]`
loop (FDA_tool.py lines 382-386): `text_entry.get("text_type_code")` is
compared with `"D"` and the event description, truncated to 300 characters,
is appended.  Written with explicit binds. -/
def mdrEntryPart (e : PyVal) : Except String String :=
  pyGet e "text_type_code" PyVal.none >>= fun tc =>
  if isStrD tc then
    pyGet e "text" (.str "No description available") >>= fun d =>
    pyLen d >>= fun l =>
    (if 300 < l then pySlice d 300 >>= pyAddDots else .ok d) >>= fun d2 =>
    .ok ("\n**Event Description:** " ++ pyStr d2 ++ "\n")
  else .ok ""

/-- The `for text_entry in item["mdr_text"]` loop of `_format_event_results`
(FDA_tool.py lines 381-386). -/
def mdrLoop : List PyVal → Except String String
  | [] => .ok ""
  | e :: rest => do
    let part ← mdrEntryPart e
    let r ← mdrLoop rest
    .ok (part ++ r)

/-- The nested-device extraction of `_format_event_results`
(FDA_tool.py lines 349-351). -/
def devicePartEvent (item : PyVal) : Except String PyVal := do
  let b ← pyIn "device" item
  if b then do
    let dv ← pyKey item "device"
    if truthy dv then pyIdx dv 0 else .ok (.dict [])
  else .ok (.dict [])

/-- The optional report-source line of `_format_event_results`
(FDA_tool.py lines 365-367). -/
def sourcePartEvent (item : PyVal) : Except String String := do
  let b ← pyIn "source_type" item
  if b then do
    let s ← pyKey item "source_type"
    .ok ("- **Report Source:** " ++ pyStr s ++ "\n")
  else .ok ""

/-- The optional device-problems line of `_format_event_results`
(FDA_tool.py lines 370-372). -/
def problemsPartEvent (item : PyVal) : Except String String := do
  let b ← pyIn "device_problem" item
  if b then do
    let dp ← pyKey item "device_problem"
    if truthy dp then do
      let problems ← pyJoin ", " dp
      .ok ("- **Device Problems:** " ++ problems ++ "\n")
    else .ok ""
  else .ok ""

/-- The optional patient-outcomes line of `_format_event_results`
(FDA_tool.py lines 375-377). -/
def outcomesPartEvent (item : PyVal) : Except String String := do
  let b ← pyIn "patient" item
  if b then do
    let pv ← pyKey item "patient"
    if truthy pv then do
      let p0 ← pyIdx pv 0
      let b2 ← pyIn "sequence_number_outcome" p0
      if b2 then do
        let ov ← pyKey p0 "sequence_number_outcome"
        let outcomes ← pyJoin ", " ov
        .ok ("- **Patient Outcomes:** " ++ outcomes ++ "\n")
      else .ok ""
    else .ok ""
  else .ok ""

/-- The optional narrative block of `_format_event_results`
(FDA_tool.py lines 380-386). -/
def mdrPartEvent (item : PyVal) : Except String String := do
  let b ← pyIn "mdr_text" item
  if b then do
    let mv ← pyKey item "mdr_text"
    if truthy mv then do
      let entries ← pyIter mv
      mdrLoop entries
    else .ok ""
  else .ok ""

/-- One record of `_format_event_results` (FDA_tool.py lines 347-388). -/
def formatEventItem (item : PyVal) : Except String String := do
  let device ← devicePartEvent item
  let deviceName ← pyGet device "brand_name" (.str "Unknown Device")
  let manufacturer ← pyGet device "manufacturer_d_name" (.str "Unknown Manufacturer")
  let eventType ← pyGet item "event_type" (.str "Unknown Event Type")
  let date ← pyGet item "date_received" (.str "Unknown Date")
  let sourcePart ← sourcePartEvent item
  let problemsPart ← problemsPartEvent item
  let outcomesPart ← outcomesPartEvent item
  let mdrPart ← mdrPartEvent item
  .ok ("### " ++ pyStr deviceName ++ " Adverse Event\n"
    ++ "- **Manufacturer:** " ++ pyStr manufacturer ++ "\n"
    ++ "- **Event Type:** " ++ pyStr eventType ++ "\n"
    ++ "- **Report Date:** " ++ pyStr date ++ "\n"
    ++ sourcePart
    ++ problemsPart
    ++ outcomesPart
    ++ mdrPart
    ++ "\n---\n\n")

/-- The comprehension `[p.get("product_code", "") for p in item["products"]]`
of `_format_registration_results` (FDA_tool.py line 413). -/
def collectCodes : List PyVal → Except String (List PyVal)
  | [] => .ok []
  | p :: rest => do
    let c ← pyGet p "product_code" (.str "")
    let r ← collectCodes rest
    .ok (c :: r)

/-- The optional establishment-type line of `_format_registration_results`
(FDA_tool.py lines 407-409). -/
def estPartReg (item : PyVal) : Except String String := do
  let b ← pyIn "establishment_type" item
  if b then do
    let e ← pyKey item "establishment_type"
    .ok ("- **Establishment Type:** " ++ pyStr e ++ "\n")
  else .ok ""

/-- `unique_codes = list(set(filter(None, product_codes)))` (FDA_tool.py
line 414): `list(set(...))` is modelled deterministically as a
first-occurrence deduplication (the CPython set iteration order is
unspecified; no claim depends on that order or on set hashability). -/
def uniqueCodes (codes : List PyVal) : List PyVal :=
  (codes.filter truthy).pwFilter (fun a b => !pyEq a b)

/-- The optional product-codes line of `_format_registration_results`
(FDA_tool.py lines 412-416). -/
def productsPartReg (item : PyVal) : Except String String := do
  let b ← pyIn "products" item
  if b then do
    let pv ← pyKey item "products"
    if truthy pv then do
      let ps ← pyIter pv
      let codes ← collectCodes ps
      if (uniqueCodes codes).isEmpty then .ok ""
      else do
        let joined ← pyJoin ", " (.list (uniqueCodes codes))
        .ok ("- **Product Codes:** " ++ joined ++ "\n")
    else .ok ""
  else .ok ""

/-- One record of `_format_registration_results` (FDA_tool.py lines 395-418). -/
def formatRegistrationItem (item : PyVal) : Except String String := do
  let name ← pyGet item "name" (.str "Unknown Company")
  let regNum ← pyGet item "registration_number" (.str "Unknown")
  let address ← pyGet item "address_line_1" (.str "")
  let city ← pyGet item "city" (.str "")
  let state ← pyGet item "state" (.str "")
  let country ← pyGet item "country_code" (.str "")
  let estPart ← estPartReg item
  let productsPart ← productsPartReg item
  .ok ("### " ++ pyStr name ++ " (Reg# " ++ pyStr regNum ++ ")\n"
    ++ "- **Address:** " ++ pyStr address ++ ", " ++ pyStr city ++ ", "
    ++ pyStr state ++ ", " ++ pyStr country ++ "\n"
    ++ estPart
    ++ productsPart
    ++ "\n---\n\n")

/-- The accumulation `formatted += ...` over the records of one response
(`for item in results["results"]`). -/
def formatItems (f : PyVal → Except String String) : List PyVal → Except String String
  | [] => .ok ""
  | item :: rest => do
    let s ← f item
    let r ← formatItems f rest
    .ok (s ++ r)

/-- `for item in results["results"]` plus the per-record body of one
single-database formatter. -/
def formatBody (f : PyVal → Except String String) (results : PyVal) :
    Except String String := do
  let rv ← pyKey results "results"
  let items ← pyIter rv
  formatItems f items

/-- The "no results" message of `_format_results` (FDA_tool.py line 160). -/
def noResultsFormatMsg (dbType : String) : String :=
  "No results found in the FDA " ++ dbType ++ " database for this query."

/-- The `db_type` dispatch of `_format_results` (FDA_tool.py lines 164-182):
an unrecognized database contributes no body. -/
def formatDispatch (results : PyVal) (dbType : String) : Except String String :=
  if dbType = "510k" then formatBody format510kItem results
  else if dbType = "pma" then formatBody formatPmaItem results
  else if dbType = "recall" then formatBody formatRecallItem results
  else if dbType = "event" then formatBody formatEventItem results
  else if dbType = "registrationlisting" then
    formatBody formatRegistrationItem results
  else .ok ""

/-- `FDAMedicalDeviceTool._format_results` (FDA_tool.py lines 157-185). -/
def formatResults (results : PyVal) (dbType : String) : Except String String := do
  if truthy results = false then .ok (noResultsFormatMsg dbType)
  else do
    let b ← pyIn "results" results
    if b = false then .ok (noResultsFormatMsg dbType)
    else do
      let rv ← pyKey results "results"
      if truthy rv = false then .ok (noResultsFormatMsg dbType)
      else do
        let body ← formatDispatch results dbType
        .ok ("## FDA " ++ pyUpper dbType ++ " Database Results\n\n" ++ body
          ++ "\n\nSource: FDA " ++ pyUpper dbType ++ " Database via api.fda.gov")

/-- One record of the `510k` branch of `_format_multi_results`
(FDA_tool.py lines 200-208). -/
def multi510kItem (item : PyVal) : Except String String := do
  let deviceName ← pyGet item "device_name" (.str "Unknown Device")
  let decisionDate ← pyGet item "decision_date" (.str "Unknown Date")
  let manufacturer ← getApplicantName item
  let kNumber ← pyGet item "k_number" (.str "Unknown")
  .ok ("- **" ++ pyStr deviceName ++ "** (K" ++ pyStr kNumber ++ ")\n"
    ++ "  - Manufacturer: " ++ pyStr manufacturer ++ "\n"
    ++ "  - Clearance Date: " ++ pyStr decisionDate ++ "\n\n")

/-- One record of the `pma` branch of `_format_multi_results`
(FDA_tool.py lines 212-220). -/
def multiPmaItem (item : PyVal) : Except String String := do
  let ofda ← pyGet item "openfda" (.dict [])
  let dnCond ← pyGet ofda "device_name" PyVal.none
  let deviceName ← if truthy dnCond then do
      let dn ← pyGet ofda "device_name" (.list [.str "Unknown Device"])
      let d0 ← pyIdx dn 0
      .ok (pyStr d0)
    else .ok "Unknown Device"
  let approvalDate ← pyGet item "approval_date" (.str "Unknown Date")
  let applicant ← pyGet item "applicant" (.str "Unknown Manufacturer")
  let pmaNumber ← pyGet item "pma_number" (.str "Unknown")
  .ok ("- **" ++ deviceName ++ "** (" ++ pyStr pmaNumber ++ ")\n"
    ++ "  - Manufacturer: " ++ pyStr applicant ++ "\n"
    ++ "  - Approval Date: " ++ pyStr approvalDate ++ "\n\n")

/-- One record of the `recall` branch of `_format_multi_results`
(FDA_tool.py lines 224-231). -/
def multiRecallItem (item : PyVal) : Except String String := do
  let product ← pyGet item "product_description" (.str "Unknown Product")
  let reason ← pyGet item "reason_for_recall" (.str "Unknown Reason")
  let date ← pyGet item "recall_initiation_date" (.str "Unknown Date")
  let l ← pyLen reason
  let reasonLine ← if 100 < l then do
      let sl ← pySlice reason 100
      .ok ("  - Recall Reason: " ++ pyStr sl ++ "...\n")
    else .ok ("  - Recall Reason: " ++ pyStr reason ++ "\n")
  .ok ("- **" ++ pyStr product ++ "**\n"
    ++ reasonLine
    ++ "  - Date Initiated: " ++ pyStr date ++ "\n\n")

/-- One record of the `event` branch of `_format_multi_results`
(FDA_tool.py lines 234-244). -/
def multiEventItem (item : PyVal) : Except String String := do
  let dv ← pyGet item "device" PyVal.none
  let deviceName ← if truthy dv then do
      let l ← pyLen dv
      if 0 < l then do
        let d0 ← pyIdx dv 0
        let bn ← pyGet d0 "brand_name" (.str "Unknown Device")
        .ok (pyStr bn)
      else .ok "Unknown Device"
    else .ok "Unknown Device"
  let manufacturer ← if truthy dv then do
      let l ← pyLen dv
      if 0 < l then do
        let d0 ← pyIdx dv 0
        let mn ← pyGet d0 "manufacturer_d_name" (.str "Unknown Manufacturer")
        .ok (pyStr mn)
      else .ok "Unknown Manufacturer"
    else .ok "Unknown Manufacturer"
  let eventType ← pyGet item "event_type" (.str "Unknown Event Type")
  let date ← pyGet item "date_received" (.str "Unknown Date")
  .ok ("- **" ++ deviceName ++ "**\n"
    ++ "  - Manufacturer: " ++ manufacturer ++ "\n"
    ++ "  - Event Type: " ++ pyStr eventType ++ "\n"
    ++ "  - Report Date: " ++ pyStr date ++ "\n\n")

/-- The `[:2]` slice plus per-record loop of one multi-search branch
(`items = results["results"][:2]; for item in items: ...`). -/
def multiBranch (f : PyVal → Except String String) (rv : PyVal) :
    Except String String := do
  let sl ← pySlice rv 2
  let items ← pyIter sl
  formatItems f items

/-- One iteration of the `for db_type, results in results_dict.items()` loop
of `_format_multi_results` (FDA_tool.py lines 194-244): the section a single
sub-resource contributes to the combined report (empty when the guard
`"results" in results and results["results"]` fails). -/
def multiDispatch (dbType : String) (rv : PyVal) : Except String String :=
  if dbType = "510k" then multiBranch multi510kItem rv
  else if dbType = "pma" then multiBranch multiPmaItem rv
  else if dbType = "recall" then multiBranch multiRecallItem rv
  else if dbType = "event" then multiBranch multiEventItem rv
  else .ok ""

def multiSection (dbType : String) (results : PyVal) : Except String String := do
  let b ← pyIn "results" results
  if b then do
    let rv ← pyKey results "results"
    if truthy rv then do
      let body ← multiDispatch dbType rv
      .ok ("## " ++ pyUpper dbType ++ " Database\n" ++ body)
    else .ok ""
  else .ok ""

/-- The whole `for db_type, results in results_dict.items()` loop. -/
def multiSections : List (String × PyVal) → Except String String
  | [] => .ok ""
  | (dbType, results) :: rest => do
    let sec ← multiSection dbType results
    let r ← multiSections rest
    .ok (sec ++ r)

/-- `FDAMedicalDeviceTool._format_multi_results` (FDA_tool.py lines 187-247).
The insertion-ordered Python dict `results_dict` is an association list. -/
def formatMultiResults (resultsDict : List (String × PyVal)) :
    Except String String :=
  if resultsDict.isEmpty then
    .ok "No results found in FDA databases for this query."
  else do
    let body ← multiSections resultsDict
    .ok ("# FDA Medical Device Database Results\n\n" ++ body
      ++ "\nSource: FDA Databases via api.fda.gov")

/-- An HTTP response: status code and decoded JSON body. -/
structure HttpResponse where
  status : Nat
  jsonBody : PyVal

/-- `FDAMedicalDeviceTool._search_database` (FDA_tool.py lines 96-131): a
non-200 status is classified as `"API error: <code>"`; transport errors and
that classification both propagate (the inner `except` re-raises). -/
def searchDatabase (http : String → String → Nat → Except String HttpResponse)
    (query database : String) (limit : Nat) : Except String PyVal := do
  let resp ← http database (sanitizeQuery query database) limit
  if resp.status = 200 then .ok resp.jsonBody
  else .error ("API error: " ++ toString resp.status)

/-- The check `db_results and "results" in db_results and db_results["results"]`
(FDA_tool.py lines 65 and 84), with Python short-circuiting. -/
def hasResults (r : PyVal) : Except String Bool :=
  if truthy r = false then .ok false
  else do
    let b ← pyIn "results" r
    if b = false then .ok false
    else do
      let v ← pyKey r "results"
      .ok (truthy v)

/-- Whether the outcome of one sub-database is kept by the `"all"`-mode loop: a
raised exception (from the query or from the check itself) is caught by the
per-database `except ... continue`, and an empty response is dropped. -/
def includeResp (r : Except String PyVal) : Option PyVal :=
  match r with
  | .error _ => Option.none
  | .ok v =>
    match hasResults v with
    | .ok true => some v
    | _ => Option.none

/-- `db_to_search` (FDA_tool.py line 57). -/
def dbToSearch : List String := ["recall", "event", "510k", "pma"]

/-- One iteration of the `"all"`-mode loop of `run` (FDA_tool.py
lines 59-72): query one sub-database with limit `max(2, limit//2)` and keep
its response if non-empty. -/
def collectStep (backend : String → String → Nat → Except String PyVal)
    (query : String) (limit : Nat) (acc : List (String × PyVal))
    (db : String) : List (String × PyVal) :=
  match includeResp (backend query db (max 2 (limit / 2))) with
  | some v => acc ++ [(db, v)]
  | Option.none => acc

/-- The `"all"`-mode loop of `run` (FDA_tool.py lines 56-72): each
sub-database is queried with limit `max(2, limit//2)` and the kept responses
accumulate in insertion order. -/
def collectAll (backend : String → String → Nat → Except String PyVal)
    (query : String) (limit : Nat) : List (String × PyVal) :=
  dbToSearch.foldl (collectStep backend query limit) []

/-- The "no results anywhere" message of `run` (FDA_tool.py line 77). -/
def noResultsAllMsg (query : String) : String :=
  "No results found in any FDA database for the query: " ++ qc ++ query ++ qc
    ++ ". Please try a different search term or check the FDA website directly at https://www.fda.gov/medical-devices"

/-- The single-database "no results" message of `run` (FDA_tool.py line 89). -/
def noResultsSingleMsg (database query : String) : String :=
  "No results found in the FDA " ++ database ++ " database for the query: "
    ++ qc ++ query ++ qc ++ ". Please try a different search term."

/-- The body of the outer `try` of `run` (FDA_tool.py lines 54-89). -/
def runE (backend : String → String → Nat → Except String PyVal)
    (query database : String) (limit : Nat) : Except String String :=
  if database = "all" then
    if (collectAll backend query limit).isEmpty = false then
      formatMultiResults (collectAll backend query limit)
    else .ok (noResultsAllMsg query)
  else do
    let results ← backend query database limit
    let b ← hasResults results
    if b then formatResults results database
    else .ok (noResultsSingleMsg database query)

/-- `FDAMedicalDeviceTool.run` (FDA_tool.py lines 38-94): the outer `except`
renders any escaped exception as an error string. -/
def run (backend : String → String → Nat → Except String PyVal)
    (query : String) (database : String := "all") (limit : Nat := 5) : String :=
  match runE backend query database limit with
  | .ok s => s
  | .error e => "Error searching FDA database: " ++ e

/-- Total counterpart of `probeFields` on a dict: the value the ordered
probe returns. -/
def probeValue (fs : List (String × PyVal)) : List String → PyVal
  | [] => .str "Unknown Manufacturer"
  | f :: rest =>
    match dictLookup fs f with
    | some v => if truthy v then v else probeValue fs rest
    | Option.none => probeValue fs rest

/-- The manufacturer value `_get_applicant_name` yields on a dict record. -/
def applicantValue (fs : List (String × PyVal)) : PyVal :=
  probeValue fs ["applicant", "owner_operator", "manufacturer"]

end FDA

namespace Agents

open Py

/-- A collaborator tool method `run(query) -> str`; `Except.error` stands for a
raised exception. -/
def Collab : Type := String → Except String String

/-- `fda_keywords` (agents.py lines 89-92). -/
def fdaKeywords : List String :=
  ["fda", "recall", "510k", "clearance", "approval", "pma",
   "medical device", "adverse event", "regulatory", "maude"]

/-- The concatenation `user_input + " " + " ".join(results)`. -/
def combinedText (userInput : String) (results : List String) : String :=
  userInput ++ " " ++ joinSep " " results

/-- `Agent._needs_fda_search` (agents.py lines 85-94). -/
def needsFdaSearch (userInput : String) (results : List String) : Bool :=
  let combined := pyLower (combinedText userInput results)
  fdaKeywords.any (fun k => hasSubstr combined k)

/-- `device_keywords` (agents.py line 101). -/
def deviceKeywords : List String :=
  ["everion", "biofourmis", "insulin pump", "pacemaker", "stent", "catheter"]

/-- The `for device in device_keywords: ... break` scan (agents.py
lines 104-107): first listed keyword found in the text wins, else the
default `"medical device"`. -/
def scanDevice (text : String) : List String → String
  | [] => "medical device"
  | d :: rest => if hasSubstr text d then d else scanDevice text rest

/-- `Agent._get_fda_search_params` (agents.py lines 96-120). -/
def getFdaSearchParams (userInput : String) (results : List String) :
    String × String :=
  let combined := combinedText userInput results
  let lower := pyLower combined
  let searchQuery := scanDevice lower deviceKeywords
  let database :=
    if hasSubstr lower "recall" then "recall"
    else if hasSubstr lower "510k" || hasSubstr lower "clearance" then "510k"
    else if hasSubstr lower "pma" || hasSubstr lower "approval" then "pma"
    else if hasSubstr lower "adverse" || hasSubstr lower "event" then "event"
    else "all"
  (searchQuery, database)

/-- Step 1 of `Agent.process` (agents.py lines 40-47): the vector-store tool,
its `try/except`, and the `> 20` stripped-length filter. -/
def vectorBlocks (vector : Option Collab) (userInput : String) : List String :=
  match vector with
  | Option.none => []
  | some vt =>
    match vt userInput with
    | .ok r =>
      if r != "" && decide (20 < (pyStrip r).length) then
        ["## Internal Documents\n" ++ r]
      else []
    | .error e => ["**Vector Store Error:** " ++ e]

/-- Step 2 of `Agent.process` (agents.py lines 49-60): the FDA tool (a
function of query and database), its `try/except`, and the truthiness check
on the result. -/
def fdaBlocks (fda : Option (String → String → Except String String))
    (userInput : String) (results : List String) : List String :=
  match fda with
  | Option.none => []
  | some f =>
    if needsFdaSearch userInput results then
      let p := getFdaSearchParams userInput results
      match f p.1 p.2 with
      | .ok r => if r != "" then ["## FDA Database Results\n" ++ r] else []
      | .error e => ["**FDA Search Error:** " ++ e]
    else []

/-- The web-search trigger of step 3 (agents.py line 63). -/
def webTrigger (userInput : String) : Bool :=
  ["web search", "latest", "recent", "current"].any
    (fun t => hasSubstr (pyLower userInput) t)

/-- Step 3 of `Agent.process` (agents.py lines 62-70). -/
def webBlocks (web : Option Collab) (userInput : String) : List String :=
  if webTrigger userInput then
    match web with
    | some wt =>
      match wt userInput with
      | .ok r => ["## Web Search Results\n" ++ r]
      | .error e => ["**Web Search Error:** " ++ e]
    | Option.none => []
  else []

/-- The `tool_results` accumulated over steps 1-3 of `Agent.process`.  The
FDA step keyword tests read the evidence gathered so far (the step-1
output). -/
def gatherEvidence (vector : Option Collab)
    (fda : Option (String → String → Except String String))
    (web : Option Collab) (userInput : String) : List String :=
  let r1 := vectorBlocks vector userInput
  let r2 := r1 ++ fdaBlocks fda userInput r1
  r2 ++ webBlocks web userInput

/-- The prompt built by `Agent._generate_response` (agents.py lines 124-135). -/
def buildPrompt (userInput : String) (toolResults : List String) : String :=
  if toolResults.isEmpty = false then
    "User Question: " ++ userInput ++ "\n\nInformation Found:\n"
      ++ joinSep "\n\n" toolResults
      ++ "\n\nPlease provide a comprehensive, well-structured answer based on the information above. Use clear headings and highlight any important safety or regulatory information."
  else
    "User Question: " ++ userInput
      ++ "\n\nNo additional information was found from the search tools. Please provide the best answer you can and suggest what specific information the user might want to search for."

/-- `Agent._generate_response` (agents.py lines 122-180): the completion
collaborator `complete instructions prompt` stands for the client creation
plus `chat.completions.create` call; every exception from it is caught and
rendered, so this function is total. -/
def generateResponse (complete : String → String → Except String String)
    (apiKey : Option String) (instructions userInput : String)
    (toolResults : List String) : String :=
  let prompt := buildPrompt userInput toolResults
  match apiKey with
  | Option.none => "OpenAI API key not configured"
  | some _ =>
    match complete instructions prompt with
    | .ok text => text
    | .error e => "Error generating response: " ++ e

/-- `Agent.process` (agents.py lines 34-76).  Each step catches its own
exceptions (modelled inside `gatherEvidence` and `generateResponse`), so the
body of the outer `try` cannot raise; the outer `except` (lines 75-76) is
the `match` on the Except value of the body. -/
def process (vector : Option Collab)
    (fda : Option (String → String → Except String String))
    (web : Option Collab) (complete : String → String → Except String String)
    (apiKey : Option String) (instructions userInput : String) : String :=
  match (do
      let blocks := gatherEvidence vector fda web userInput
      Except.ok (generateResponse complete apiKey instructions userInput blocks)
    : Except String String) with
  | .ok s => s
  | .error e => "I encountered an error processing your request: " ++ e

end Agents

open Py FDA Agents

/-- Truncate a record list to its first 2 records (observation used to state
the `formatAll` cap; leaves non-list values alone). -/
def truncVal : PyVal → PyVal
  | .list xs => .list (xs.take 2)
  | v => v

/-- Truncate the `results` field of one sub-resource response. -/
def truncResp : PyVal → PyVal
  | .dict fs => .dict (fs.map fun kv =>
      if kv.1 == "results" then (kv.1, truncVal kv.2) else kv)
  | v => v

/-- Truncate one entry of the multi-search results dict. -/
def truncEntry (p : String × PyVal) : String × PyVal := (p.1, truncResp p.2)

/-- Whether `_format_multi_results` keeps a sub-resource entry: its response
has a `results` key holding a truthy value. -/
def keptEntry (p : String × PyVal) : Bool :=
  match p.2 with
  | .dict fs =>
    match dictLookup fs "results" with
    | some v => truthy v
    | Option.none => false
  | _ => false

/-- Well-formedness of an optional nested one-record list (the `predicates`
field of a clearance record, the `device` field of an adverse-event record):
absent, falsy, or a non-empty list whose head is a dict.  The per-record
formatters subscript such fields with `[0]` and call `.get` on the head, so
Python raises on any other truthy shape. -/
def wfNestedHead : Option PyVal → Bool
  | Option.none => true
  | some v =>
    if truthy v then
      match v with
      | .list (.dict _ :: _) => true
      | _ => false
    else true

/-- Well-formedness of an optional text field (`summary`, `text`): absent,
falsy, or a string (the Python `x[:300] + "..."` raises on truthy
non-strings longer than 300). -/
def wfStrOpt : Option PyVal → Bool
  | Option.none => true
  | some v =>
    if truthy v then
      match v with
      | .str _ => true
      | _ => false
    else true

/-- All elements are strings (`str.join` raises otherwise). -/
def allStr (xs : List PyVal) : Bool :=
  xs.all fun x => match x with | .str _ => true | _ => false

/-- Well-formedness of an optional list-of-strings field
(`device_problem`). -/
def wfStrListOpt : Option PyVal → Bool
  | Option.none => true
  | some v =>
    if truthy v then
      match v with
      | .list xs => allStr xs
      | _ => false
    else true

/-- Well-formedness of the `patient` field: absent, falsy, or a non-empty
list whose head is a dict whose optional `sequence_number_outcome` is a list
of strings. -/
def wfPatient : Option PyVal → Bool
  | Option.none => true
  | some v =>
    if truthy v then
      match v with
      | .list (.dict pfs :: _) =>
        (match dictLookup pfs "sequence_number_outcome" with
         | Option.none => true
         | some w =>
           match w with
           | .list ws => allStr ws
           | _ => false)
      | _ => false
    else true

/-- Well-formedness of one `mdr_text` entry: a dict whose `text` field, when
present, is a string (the narrative branch calls `len` on it with no
truthiness guard, so even a falsy non-string would raise). -/
def wfMdrEntry : PyVal → Bool
  | .dict efs =>
    (match dictLookup efs "text" with
     | Option.none => true
     | some w => match w with | .str _ => true | _ => false)
  | _ => false

/-- Well-formedness of the `mdr_text` field. -/
def wfMdr : Option PyVal → Bool
  | Option.none => true
  | some v =>
    if truthy v then
      match v with
      | .list es => es.all wfMdrEntry
      | _ => false
    else true

/-- A clearance record whose optional fields, when present, have the shapes
of the field table (nested values well-formed). -/
def wf510kItem : PyVal → Bool
  | .dict fs =>
    wfNestedHead (dictLookup fs "predicates")
      && wfStrOpt (dictLookup fs "summary")
  | _ => false

/-- An adverse-event record whose optional fields, when present, have the
shapes of the field table (nested values well-formed). -/
def wfEventItem : PyVal → Bool
  | .dict fs =>
    wfNestedHead (dictLookup fs "device")
      && wfStrListOpt (dictLookup fs "device_problem")
      && wfPatient (dictLookup fs "patient")
      && wfMdr (dictLookup fs "mdr_text")
  | _ => false

/-- Well-formedness of the `openfda` field of an approval record: absent, or
a mapping whose optional `device_name`, when truthy, is a (necessarily
non-empty) list, per the field table, so that indexing with `[0]`
succeeds. -/
def wfPmaOpenfda : Option PyVal → Bool
  | Option.none => true
  | some v =>
    match v with
    | .dict ofs =>
      (match dictLookup ofs "device_name" with
       | Option.none => true
       | some w =>
         if truthy w then
           match w with
           | .list _ => true
           | _ => false
         else true)
    | _ => false

/-- An approval record whose optional fields, when present, have the shapes
of the field table (nested values well-formed). -/
def wfPmaItem : PyVal → Bool
  | .dict fs => wfPmaOpenfda (dictLookup fs "openfda")
  | _ => false

/-- A recall record: every branch of the recall formatter is total on a
mapping, so well-formedness only requires the record to be one. -/
def wfRecallItem : PyVal → Bool
  | .dict _ => true
  | _ => false

/-- Well-formedness of one element of the `products` list: a mapping whose
optional `product_code`, when present, is a string (the default for a
missing code is the falsy empty string, which `filter(None, ...)`
drops). -/
def wfRegProduct : PyVal → Bool
  | .dict pfs =>
    (match dictLookup pfs "product_code" with
     | Option.none => true
     | some w => match w with | .str _ => true | _ => false)
  | _ => false

/-- Well-formedness of the `products` field: absent, falsy, or a list of
well-formed product mappings. -/
def wfRegProducts : Option PyVal → Bool
  | Option.none => true
  | some v =>
    if truthy v then
      match v with
      | .list ps => ps.all wfRegProduct
      | _ => false
    else true

/-- A registration record whose optional fields, when present, have the
shapes of the field table (nested values well-formed). -/
def wfRegistrationItem : PyVal → Bool
  | .dict fs => wfRegProducts (dictLookup fs "products")
  | _ => false

/-- Well-formedness of one backend response: if it has a `results` field,
that field holds a list of records (as the FDA API returns). -/
def respWF (v : PyVal) : Prop :=
  ∀ w, lookupField v "results" = some w → ∃ xs, w = PyVal.list xs

/-! Theorems. -/

namespace Py

theorem begins_refl (l : List Char) : begins l l = true := by
  induction l with
  | nil => rfl
  | cons c cs ih => simp [begins, ih]

theorem begins_append (p t : List Char) : begins p (p ++ t) = true := by
  induction p with
  | nil => rfl
  | cons c cs ih => simp [begins, ih]

theorem begins_extend (p l m : List Char) (h : begins p l = true) :
    begins p (l ++ m) = true := by
  induction p generalizing l with
  | nil => rfl
  | cons c cs ih =>
    cases l with
    | nil => simp [begins] at h
    | cons d ds =>
      simp only [begins, Bool.and_eq_true] at h ⊢
      exact ⟨h.1, ih ds h.2⟩

theorem substrAux_of_begins (p l : List Char) (h : begins p l = true) :
    substrAux p l = true := by
  cases l with
  | nil => simpa [substrAux] using h
  | cons c cs => simp [substrAux, h]

theorem hasSubstr_self_append (pat t : String) :
    hasSubstr (pat ++ t) pat = true := by
  unfold hasSubstr
  rw [String.data_append]
  exact substrAux_of_begins _ _ (begins_append _ _)

theorem hasSubstr_append_right (s t pat : String) (h : hasSubstr t pat = true) :
    hasSubstr (s ++ t) pat = true := by
  unfold hasSubstr at h ⊢
  rw [String.data_append]
  induction s.data with
  | nil => simpa using h
  | cons c cs ih => simp [substrAux, ih]

theorem substrAux_nil_pat (l : List Char) : substrAux [] l = true := by
  induction l with
  | nil => rfl
  | cons c cs ih => simp [substrAux, begins]

theorem substrAux_append_left (p l m : List Char) (h : substrAux p l = true) :
    substrAux p (l ++ m) = true := by
  induction l with
  | nil =>
    have hp : p = [] := by
      cases p with
      | nil => rfl
      | cons a as => simp [substrAux, begins] at h
    subst hp
    simpa using substrAux_nil_pat m
  | cons c cs ih =>
    simp only [substrAux, Bool.or_eq_true] at h
    simp only [List.cons_append, substrAux, Bool.or_eq_true]
    rcases h with hb | hs
    · exact Or.inl (by simpa using begins_extend p (c :: cs) m hb)
    · exact Or.inr (ih hs)

theorem hasSubstr_append_left (s t pat : String) (h : hasSubstr s pat = true) :
    hasSubstr (s ++ t) pat = true := by
  unfold hasSubstr at h ⊢
  rw [String.data_append]
  exact substrAux_append_left _ _ _ h

theorem string_append_ne_empty_of_left (a b : String) (h : a.data ≠ []) :
    a ++ b ≠ "" := by
  intro hab
  apply h
  have : (a ++ b).data = "".data := by rw [hab]
  rw [String.data_append] at this
  exact List.append_eq_nil.mp (by simpa using this) |>.1

/-- Simp lemma: bind on a successful `Except`. -/
@[simp] theorem okBind {α β : Type} (a : α) (f : α → Except String β) :
    (Except.ok a >>= f) = f a := rfl

/-- Simp lemma: bind on a failed `Except`. -/
@[simp] theorem errBind {α β : Type} (e : String) (f : α → Except String β) :
    ((Except.error e : Except String α) >>= f) = Except.error e := rfl

/-- Simp lemma: `pure` on `Except` is `Except.ok`. -/
@[simp] theorem pureOk {α : Type} (a : α) :
    (pure a : Except String α) = Except.ok a := rfl

theorem bindOkIff {α β : Type} (x : Except String α) (f : α → Except String β)
    (b : β) : (x >>= f) = .ok b ↔ ∃ a, x = .ok a ∧ f a = .ok b := by
  cases x with
  | ok a => simp
  | error e => simp

theorem hasSubstr_self (s : String) : hasSubstr s s = true :=
  substrAux_of_begins _ _ (begins_refl _)

theorem ne_empty_iff_data (s : String) : s ≠ "" ↔ s.data ≠ [] := by
  constructor
  · intro h hd
    exact h (String.ext hd)
  · intro h he
    exact h (by rw [he])

theorem ne_empty_extend (s t : String) (h : s ≠ "") : s ++ t ≠ "" := by
  rw [ne_empty_iff_data] at h ⊢
  rw [String.data_append]
  intro hx
  exact h (List.append_eq_nil.mp hx).1

theorem dictLookup_isSome_eq_any (fs : List (String × PyVal)) (key : String) :
    (fs.any fun kv => kv.1 == key) = (dictLookup fs key).isSome := by
  induction fs with
  | nil => rfl
  | cons kv rest ih =>
    obtain ⟨k, v⟩ := kv
    simp only [List.any_cons, dictLookup]
    cases h : k == key with
    | true => simp [h]
    | false => simp [h, ih]

theorem pyGet_dict (fs : List (String × PyVal)) (key : String) (d : PyVal) :
    pyGet (.dict fs) key d = .ok ((dictLookup fs key).getD d) := rfl

theorem pyIn_dict (fs : List (String × PyVal)) (key : String) :
    pyIn key (.dict fs) = .ok (fs.any fun kv => kv.1 == key) := rfl

theorem pyKey_dict_some (fs : List (String × PyVal)) (key : String) (v : PyVal)
    (h : dictLookup fs key = some v) : pyKey (.dict fs) key = .ok v := by
  simp [pyKey, h]

theorem dictLookup_nil (key : String) :
    dictLookup [] key = Option.none := rfl

end Py

namespace FDA

open Py

theorem probeFields_dict_cons (fs : List (String × PyVal)) (f : String)
    (rest : List String) :
    probeFields (.dict fs) (f :: rest) =
      match dictLookup fs f with
      | some v => if truthy v then .ok v else probeFields (.dict fs) rest
      | Option.none => probeFields (.dict fs) rest := by
  simp only [probeFields, pyIn_dict, okBind, dictLookup_isSome_eq_any]
  cases h : dictLookup fs f with
  | none => simp [h]
  | some v => simp [h, pyKey_dict_some fs f v h]

theorem probeFields_dict (fs : List (String × PyVal)) (fields : List String) :
    probeFields (.dict fs) fields = .ok (probeValue fs fields) := by
  induction fields with
  | nil => rfl
  | cons f rest ih =>
    rw [probeFields_dict_cons]
    cases h : dictLookup fs f with
    | none => simp [probeValue, h, ih]
    | some v =>
      cases ht : truthy v with
      | true => simp [probeValue, h, ht]
      | false => simp [probeValue, h, ht, ih]

theorem getApplicantName_dict (fs : List (String × PyVal)) :
    getApplicantName (.dict fs) = .ok (applicantValue fs) :=
  probeFields_dict fs _

end FDA

/-- C2: `_sanitize_query` first trims the query and returns `"device"` when
the trimmed query is empty; a single-word query is returned unchanged; a
multi-word query is prefixed with `device_name:` for `510k`, with
`product_description:` for `recall`, with `device.brand_name:` for `event`,
and is passed through unmodified for `pma` and every other database
identifier (including `registrationlisting`).  The four concrete examples of
the spec hold, and the function is a total Lean function. -/
theorem C2_sanitize_query :
    (∀ q db, pyStrip q = "" → sanitizeQuery q db = "device")
    ∧ (∀ q db, pyStrip q ≠ "" → (pySplit (pyStrip q)).length = 1 →
        sanitizeQuery q db = pyStrip q)
    ∧ (∀ q, pyStrip q ≠ "" → (pySplit (pyStrip q)).length ≠ 1 →
        sanitizeQuery q "510k" = "device_name:" ++ pyStrip q
          ∧ sanitizeQuery q "recall" = "product_description:" ++ pyStrip q
          ∧ sanitizeQuery q "event" = "device.brand_name:" ++ pyStrip q
          ∧ sanitizeQuery q "pma" = pyStrip q)
    ∧ (∀ q db, pyStrip q ≠ "" → (pySplit (pyStrip q)).length ≠ 1 →
        db ≠ "510k" → db ≠ "recall" → db ≠ "event" →
        sanitizeQuery q db = pyStrip q)
    ∧ (∀ db, sanitizeQuery "" db = "device")
    ∧ sanitizeQuery "pacemaker" "510k" = "pacemaker"
    ∧ sanitizeQuery "heart valve" "recall" = "product_description:heart valve"
    ∧ sanitizeQuery "heart valve" "pma" = "heart valve" := by
  refine ⟨?_, ?_, ?_, ?_, ?_, ?_, ?_, ?_⟩
  · intro q db h
    simp [sanitizeQuery, h]
  · intro q db h h1
    simp [sanitizeQuery, h, h1]
  · intro q h h1
    refine ⟨?_, ?_, ?_, ?_⟩ <;> simp [sanitizeQuery, h, h1]
  · intro q db h h1 h2 h3 h4
    simp [sanitizeQuery, h, h1, h2, h3, h4]
  · intro db
    have h : pyStrip "" = "" := rfl
    simp [sanitizeQuery, h]
  · decide
  · decide
  · decide

theorem C2_sanitize_query_witness :
    sanitizeQuery "insulin pump system" "registrationlisting"
      = "insulin pump system" :=
  C2_sanitize_query.2.2.2.1 "insulin pump system" "registrationlisting"
    (by decide) (by decide) (by decide) (by decide) (by decide)

/-- C8: `_get_applicant_name` resolves the manufacturer by an ordered probe:
the value of `applicant` if present and truthy, else `owner_operator` if
present and truthy, else `manufacturer` if present and truthy, else
`"Unknown Manufacturer"` — first non-empty wins. -/
theorem C8_applicant_fallback :
    (∀ fs v, dictLookup fs "applicant" = some v → truthy v = true →
       getApplicantName (.dict fs) = .ok v)
    ∧ (∀ fs v, (∀ w, dictLookup fs "applicant" = some w → truthy w = false) →
        dictLookup fs "owner_operator" = some v → truthy v = true →
        getApplicantName (.dict fs) = .ok v)
    ∧ (∀ fs v, (∀ w, dictLookup fs "applicant" = some w → truthy w = false) →
        (∀ w, dictLookup fs "owner_operator" = some w → truthy w = false) →
        dictLookup fs "manufacturer" = some v → truthy v = true →
        getApplicantName (.dict fs) = .ok v)
    ∧ (∀ fs, (∀ w, dictLookup fs "applicant" = some w → truthy w = false) →
        (∀ w, dictLookup fs "owner_operator" = some w → truthy w = false) →
        (∀ w, dictLookup fs "manufacturer" = some w → truthy w = false) →
        getApplicantName (.dict fs) = .ok (.str "Unknown Manufacturer")) := by
  have probe2 : ∀ fs (f : String) rest v, dictLookup fs f = some v →
      truthy v = true →
      probeFields (PyVal.dict fs) (f :: rest) = .ok v := by
    intro fs f rest v h ht
    rw [probeFields_dict_cons, h]
    simp [ht]
  have probeSkip : ∀ fs (f : String) rest,
      (∀ w, dictLookup fs f = some w → truthy w = false) →
      probeFields (PyVal.dict fs) (f :: rest)
        = probeFields (PyVal.dict fs) rest := by
    intro fs f rest h
    rw [probeFields_dict_cons]
    cases hl : dictLookup fs f with
    | none => simp
    | some w => simp [h w hl]
  refine ⟨?_, ?_, ?_, ?_⟩
  · intro fs v h ht
    exact probe2 fs _ _ v h ht
  · intro fs v h1 h ht
    unfold getApplicantName
    rw [probeSkip fs _ _ h1]
    exact probe2 fs _ _ v h ht
  · intro fs v h1 h2 h ht
    unfold getApplicantName
    rw [probeSkip fs _ _ h1, probeSkip fs _ _ h2]
    exact probe2 fs _ _ v h ht
  · intro fs h1 h2 h3
    unfold getApplicantName
    rw [probeSkip fs _ _ h1, probeSkip fs _ _ h2, probeSkip fs _ _ h3]
    rfl

theorem C8_applicant_fallback_witness :
    getApplicantName (.dict [("applicant", .str ""),
      ("owner_operator", .str "Acme Devices"), ("manufacturer", .str "Other")])
      = .ok (.str "Acme Devices") :=
  C8_applicant_fallback.2.1
    [("applicant", .str ""), ("owner_operator", .str "Acme Devices"),
      ("manufacturer", .str "Other")]
    (.str "Acme Devices")
    (by intro w hw; cases hw; rfl)
    (by rfl) (by rfl)

/-- C6: in single-database mode, an upstream non-success status (e.g. 503)
is classified by `_search_database` as an error carrying the code, and `run`
renders it as an error string containing `"Error"` and the code instead of
raising. -/
theorem C6_upstream_error_rendering :
    (∀ http query db limit resp,
       http db (sanitizeQuery query db) limit = .ok resp →
       resp.status ≠ 200 →
       searchDatabase http query db limit
         = .error ("API error: " ++ toString resp.status))
    ∧ (∀ http query db limit resp, db ≠ "all" →
        http db (sanitizeQuery query db) limit = .ok resp →
        resp.status ≠ 200 →
        FDA.run (searchDatabase http) query db limit
            = "Error searching FDA database: API error: " ++ toString resp.status
          ∧ hasSubstr (FDA.run (searchDatabase http) query db limit)
              "Error" = true
          ∧ hasSubstr (FDA.run (searchDatabase http) query db limit)
              (toString resp.status) = true) := by
  have classify : ∀ http query db limit
      (resp : HttpResponse),
      http db (sanitizeQuery query db) limit = .ok resp →
      resp.status ≠ 200 →
      searchDatabase http query db limit
        = .error ("API error: " ++ toString resp.status) := by
    intro http query db limit resp hh hst
    unfold searchDatabase
    rw [hh]
    simp [hst]
  refine ⟨classify, ?_⟩
  intro http query db limit resp hdb hh hst
  have hrun : FDA.run (searchDatabase http) query db limit
      = "Error searching FDA database: API error: " ++ toString resp.status := by
    unfold FDA.run runE
    rw [if_neg hdb, classify http query db limit resp hh hst]
    rfl
  refine ⟨hrun, ?_, ?_⟩
  · rw [hrun]
    exact hasSubstr_append_left _ _ _ (by rfl)
  · rw [hrun]
    exact hasSubstr_append_right _ _ _ (hasSubstr_self _)

theorem C6_upstream_error_rendering_witness :
    FDA.run (searchDatabase (fun _ _ _ => .ok ⟨503, PyVal.none⟩)) "pump" "recall" 5
        = "Error searching FDA database: API error: " ++ toString (503 : Nat)
      ∧ hasSubstr (FDA.run (searchDatabase (fun _ _ _ => .ok ⟨503, PyVal.none⟩))
          "pump" "recall" 5) "Error" = true
      ∧ hasSubstr (FDA.run (searchDatabase (fun _ _ _ => .ok ⟨503, PyVal.none⟩))
          "pump" "recall" 5) (toString (503 : Nat)) = true :=
  C6_upstream_error_rendering.2 (fun _ _ _ => .ok ⟨503, PyVal.none⟩)
    "pump" "recall" 5 ⟨503, PyVal.none⟩ (by decide) rfl (by decide)

/-- C9: in `"all"` mode, `run` issues every sub-database query with limit
`max(2, limit // 2)` — its result depends only on the backend behaviour at
that limit — so with the default limit 5 each sub-database is requested with
limit 2, while in single-database mode the limit of the caller is passed through
unchanged. -/
theorem C9_limit_split :
    (∀ backend backend2 query limit,
       (∀ db, db ∈ dbToSearch →
          backend query db (max 2 (limit / 2))
            = backend2 query db (max 2 (limit / 2))) →
       FDA.run backend query "all" limit = FDA.run backend2 query "all" limit)
    ∧ (∀ backend backend2 query db limit, db ≠ "all" →
        backend query db limit = backend2 query db limit →
        FDA.run backend query db limit = FDA.run backend2 query db limit)
    ∧ max 2 (5 / 2) = 2 := by
  refine ⟨?_, ?_, rfl⟩
  · intro backend backend2 query limit h
    have hc : collectAll backend query limit = collectAll backend2 query limit := by
      simp only [collectAll, dbToSearch, List.foldl, collectStep]
      rw [h "recall" (by simp [dbToSearch]), h "event" (by simp [dbToSearch]),
        h "510k" (by simp [dbToSearch]), h "pma" (by simp [dbToSearch])]
    have he : runE backend query "all" limit = runE backend2 query "all" limit := by
      unfold runE
      rw [if_pos rfl, if_pos rfl, hc]
    unfold FDA.run
    rw [he]
  · intro backend backend2 query db limit hdb hbe
    have he : runE backend query db limit = runE backend2 query db limit := by
      unfold runE
      rw [if_neg hdb, if_neg hdb, hbe]
    unfold FDA.run
    rw [he]

theorem C9_limit_split_witness :
    FDA.run (fun _ db l => if l = 2 then .ok (.dict [("results",
        .list [.dict [("product_description", .str (db ++ " record"))]])])
      else .error "unexpected limit")
      "pump" "all" 5
    = FDA.run (fun _ db _ => .ok (.dict [("results",
        .list [.dict [("product_description", .str (db ++ " record"))]])]))
      "pump" "all" 5 :=
  C9_limit_split.1
    (fun _ db l => if l = 2 then .ok (.dict [("results",
        .list [.dict [("product_description", .str (db ++ " record"))]])])
      else .error "unexpected limit")
    (fun _ db _ => .ok (.dict [("results",
        .list [.dict [("product_description", .str (db ++ " record"))]])]))
    "pump" 5 (by intro db _; rfl)

/-- C4: `process` completes all steps for every combination of collaborator
failures: each step converts a raised exception into a labeled error
evidence block and never prevents later steps, synthesis proceeds even with
zero evidence blocks (with the "no additional information" prompt framing),
and `process` itself always reaches the synthesis call — no modelled fault
escapes to the outer handler, whose conversion branch prefixes
"I encountered an error processing your request". -/
theorem C4_process_resilience :
    (∀ vector fda web complete apiKey instructions u,
       process vector fda web complete apiKey instructions u
         = generateResponse complete apiKey instructions u
             (gatherEvidence vector fda web u))
    ∧ (∀ ev ef ew u,
        needsFdaSearch u ["**Vector Store Error:** " ++ ev] = true →
        webTrigger u = true →
        gatherEvidence (some fun _ => .error ev) (some fun _ _ => .error ef)
            (some fun _ => .error ew) u
          = ["**Vector Store Error:** " ++ ev, "**FDA Search Error:** " ++ ef,
             "**Web Search Error:** " ++ ew])
    ∧ (∀ u, gatherEvidence Option.none Option.none Option.none u = [])
    ∧ (∀ u, buildPrompt u []
        = "User Question: " ++ u
          ++ "\n\nNo additional information was found from the search tools. Please provide the best answer you can and suggest what specific information the user might want to search for.") := by
  refine ⟨?_, ?_, ?_, ?_⟩
  · intro vector fda web complete apiKey instructions u
    rfl
  · intro ev ef ew u h1 h2
    simp [gatherEvidence, vectorBlocks, fdaBlocks, webBlocks, h1, h2]
  · intro u
    simp [gatherEvidence, vectorBlocks, fdaBlocks, webBlocks]
  · intro u
    rfl

theorem truthy_truncVal (v : PyVal) : truthy (truncVal v) = truthy v := by
  cases v with
  | list xs => cases xs <;> rfl
  | _ => rfl

theorem pySlice_truncVal (v : PyVal) : pySlice (truncVal v) 2 = pySlice v 2 := by
  cases v with
  | list xs => simp [truncVal, pySlice, List.take_take]
  | _ => rfl

theorem multiDispatch_truncVal (dbType : String) (v : PyVal) :
    multiDispatch dbType (truncVal v) = multiDispatch dbType v := by
  simp only [multiDispatch, multiBranch, pySlice_truncVal]

theorem truncResp_any (fs : List (String × PyVal)) (key : String) :
    ((fs.map fun kv =>
        if kv.1 == "results" then (kv.1, truncVal kv.2) else kv).any
      fun kv => kv.1 == key)
      = (fs.any fun kv => kv.1 == key) := by
  induction fs with
  | nil => rfl
  | cons kv rest ih =>
    obtain ⟨k, v⟩ := kv
    simp only [List.map_cons, List.any_cons]
    by_cases h : k = "results"
    · rw [show (if (k == "results") = true then ((k, truncVal v) : String × PyVal)
          else (k, v)) = (k, truncVal v) from by simp [h]]
      rw [ih]
    · rw [show (if (k == "results") = true then ((k, truncVal v) : String × PyVal)
          else (k, v)) = (k, v) from by simp [h]]
      rw [ih]

theorem truncResp_lookup (fs : List (String × PyVal)) :
    dictLookup (fs.map fun kv =>
        if kv.1 == "results" then (kv.1, truncVal kv.2) else kv) "results"
      = (dictLookup fs "results").map truncVal := by
  induction fs with
  | nil => rfl
  | cons kv rest ih =>
    obtain ⟨k, v⟩ := kv
    simp only [List.map_cons]
    by_cases h : k = "results"
    · rw [show (if (k == "results") = true then ((k, truncVal v) : String × PyVal)
          else (k, v)) = (k, truncVal v) from by simp [h]]
      subst h
      simp [dictLookup]
    · rw [show (if (k == "results") = true then ((k, truncVal v) : String × PyVal)
          else (k, v)) = (k, v) from by simp [h]]
      have hb : (k == "results") = false := by simp [h]
      simpa [dictLookup, hb] using ih

theorem multiSection_trunc (dbType : String) (resp : PyVal) :
    multiSection dbType (truncResp resp) = multiSection dbType resp := by
  cases resp with
  | dict fs =>
    unfold multiSection
    simp only [truncResp, pyIn_dict, okBind, truncResp_any]
    cases hb : fs.any (fun kv => kv.1 == "results") with
    | false => rfl
    | true =>
      rw [dictLookup_isSome_eq_any] at hb
      cases hl : dictLookup fs "results" with
      | none => rw [hl] at hb; cases hb
      | some v =>
        rw [pyKey_dict_some _ _ _ hl,
          pyKey_dict_some _ _ (truncVal v) (by rw [truncResp_lookup, hl]; rfl)]
        simp only [okBind, truthy_truncVal, multiDispatch_truncVal]
  | none => rfl
  | bool b => rfl
  | int n => rfl
  | str s => rfl
  | list xs => rfl

theorem multiSections_trunc (d : List (String × PyVal)) :
    multiSections (d.map truncEntry) = multiSections d := by
  induction d with
  | nil => rfl
  | cons p rest ih =>
    obtain ⟨db, resp⟩ := p
    unfold multiSections
    simp only [List.map_cons, truncEntry, multiSection_trunc, ih]

theorem multiSection_notKept (dbType : String) (resp : PyVal)
    (hdict : ∃ fs, resp = PyVal.dict fs) (h : keptEntry (dbType, resp) = false) :
    multiSection dbType resp = .ok "" := by
  obtain ⟨fs, rfl⟩ := hdict
  have h' : (match dictLookup fs "results" with
      | some v => truthy v
      | Option.none => false) = false := h
  unfold multiSection
  simp only [pyIn_dict, okBind, dictLookup_isSome_eq_any]
  cases hl : dictLookup fs "results" with
  | none => simp
  | some v =>
    have h2 : truthy v = false := by rw [hl] at h'; exact h'
    simp [pyKey_dict_some _ _ _ hl, h2]

theorem multiSections_filter (d : List (String × PyVal))
    (hd : ∀ p ∈ d, ∃ fs, p.2 = PyVal.dict fs) :
    multiSections (d.filter keptEntry) = multiSections d := by
  induction d with
  | nil => rfl
  | cons p rest ih =>
    obtain ⟨db, resp⟩ := p
    have hrest := ih (fun q hq => hd q (List.mem_cons_of_mem _ hq))
    cases hk : keptEntry (db, resp) with
    | true =>
      rw [List.filter_cons_of_pos hk]
      unfold multiSections
      rw [hrest]
    | false =>
      rw [List.filter_cons_of_neg (by simp [hk])]
      rw [hrest]
      have hsec := multiSection_notKept db resp
        (by simpa using hd (db, resp) (List.mem_cons_self _ _)) hk
      have hstep : multiSections ((db, resp) :: rest)
          = (multiSections rest >>= fun r => Except.ok ("" ++ r)) := by
        show (do
          let sec ← multiSection db resp
          let r ← multiSections rest
          Except.ok (sec ++ r)) = _
        rw [hsec]
        rfl
      rw [hstep]
      cases hr : multiSections rest with
      | ok r => simp
      | error e => simp

/-- C5: the combined-report formatter renders at most 2 records per
sub-resource — its output is unchanged when every record list is truncated
to its first 2 records — and emits no section for a sub-resource whose
record list is empty or absent; the combined report is the header, the
per-sub-resource sections, and the provenance line. -/
theorem C5_multi_cap_and_omission :
    (∀ d, multiSections (d.map truncEntry) = multiSections d)
    ∧ (∀ d, (∀ p ∈ d, ∃ fs, p.2 = PyVal.dict fs) →
        multiSections (d.filter keptEntry) = multiSections d)
    ∧ (∀ dbType resp, (∃ fs, resp = PyVal.dict fs) →
        keptEntry (dbType, resp) = false →
        multiSection dbType resp = .ok "")
    ∧ (∀ d, d.isEmpty = false →
        formatMultiResults d
          = (multiSections d >>= fun body =>
              .ok ("# FDA Medical Device Database Results\n\n" ++ body
                ++ "\nSource: FDA Databases via api.fda.gov"))) := by
  refine ⟨multiSections_trunc, multiSections_filter, multiSection_notKept, ?_⟩
  intro d hd
  unfold formatMultiResults
  rw [hd]
  rfl

theorem C5_multi_cap_and_omission_witness :
    multiSections ([(("recall" : String), PyVal.dict [("results", .list [])]),
        ("event", PyVal.dict [("results",
          .list [.dict [("event_type", .str "Injury")]])])].filter keptEntry)
      = multiSections [(("recall" : String), PyVal.dict [("results", .list [])]),
        ("event", PyVal.dict [("results",
          .list [.dict [("event_type", .str "Injury")]])])] :=
  C5_multi_cap_and_omission.2.1
    [("recall", PyVal.dict [("results", .list [])]),
     ("event", PyVal.dict [("results",
       .list [.dict [("event_type", .str "Injury")]])])]
    (by
      intro p hp
      cases hp with
      | head => exact ⟨_, rfl⟩
      | tail _ hp2 =>
        cases hp2 with
        | head => exact ⟨_, rfl⟩
        | tail _ hp3 => cases hp3)

theorem ite_tt {α : Type} (x y : α) : (if true = true then x else y) = x := rfl

theorem ite_ft {α : Type} (x y : α) : (if false = true then x else y) = y := rfl

theorem ite_ff {α : Type} (x y : α) : (if false = false then x else y) = x := rfl

theorem ite_tf {α : Type} (x y : α) : (if true = false then x else y) = y := rfl

theorem hasResults_dict_some (fs : List (String × PyVal)) (w : PyVal)
    (hl : dictLookup fs "results" = some w) :
    hasResults (.dict fs) = .ok (truthy w) := by
  have ht : truthy (.dict fs) = true := by
    cases fs with
    | nil => cases hl
    | cons a l => rfl
  unfold hasResults
  rw [if_neg (by rw [ht]; simp)]
  simp only [pyIn_dict, okBind, dictLookup_isSome_eq_any, hl]
  simp [pyKey_dict_some _ _ _ hl]

theorem hasResults_true_iff (v : PyVal) (hwf : respWF v) :
    hasResults v = .ok true ↔
      ∃ xs, lookupField v "results" = some (.list xs) ∧ xs ≠ [] := by
  cases v with
  | dict fs =>
    cases hl : dictLookup fs "results" with
    | none =>
      have hres : ∀ b, hasResults (PyVal.dict fs) = .ok b → b = false := by
        intro b hb
        unfold hasResults at hb
        split at hb
        · cases hb
          rfl
        · simp only [pyIn_dict, okBind, dictLookup_isSome_eq_any, hl] at hb
          cases hb
          rfl
      constructor
      · intro h
        cases hres true h
      · rintro ⟨xs, hx, _⟩
        rw [show lookupField (PyVal.dict fs) "results" = dictLookup fs "results"
          from rfl, hl] at hx
        cases hx
    | some w =>
      obtain ⟨xs, rfl⟩ := hwf w (by simpa [lookupField] using hl)
      rw [hasResults_dict_some fs _ hl]
      have hlf : lookupField (PyVal.dict fs) "results"
          = some (PyVal.list xs) := hl
      constructor
      · intro h
        have hx := Except.ok.inj h
        refine ⟨xs, hlf, ?_⟩
        intro hnil
        rw [hnil] at hx
        cases hx
      · rintro ⟨ys, hy, hne⟩
        rw [hlf] at hy
        have h2 : xs = ys := by
          have h1 : PyVal.list xs = PyVal.list ys := Option.some.inj hy
          injection h1
        subst h2
        have hx : truthy (PyVal.list xs) = true := by
          cases xs with
          | nil => cases hne rfl
          | cons a l => rfl
        rw [hx]
  | none =>
    constructor
    · intro h
      cases Except.ok.inj (show (Except.ok false : Except String Bool)
        = .ok true from h)
    · rintro ⟨xs, hx, _⟩
      cases hx
  | bool b =>
    constructor
    · intro h
      cases b with
      | false =>
        cases Except.ok.inj (show (Except.ok false : Except String Bool)
          = .ok true from h)
      | true =>
        cases (show (Except.error "TypeError: argument is not iterable"
          : Except String Bool) = .ok true from h)
    · rintro ⟨xs, hx, _⟩
      cases hx
  | int n =>
    constructor
    · intro h
      unfold hasResults at h
      split at h
      · cases Except.ok.inj h
      · rw [show pyIn "results" (PyVal.int n)
          = .error "TypeError: argument is not iterable" from rfl] at h
        simp only [errBind] at h
        cases h
    · rintro ⟨xs, hx, _⟩
      cases hx
  | str s =>
    constructor
    · intro h
      unfold hasResults at h
      split at h
      · cases Except.ok.inj h
      · rw [show pyIn "results" (PyVal.str s)
          = .ok (hasSubstr s "results") from rfl] at h
        simp only [okBind] at h
        split at h
        · cases Except.ok.inj h
        · rw [show pyKey (PyVal.str s) "results"
            = .error "TypeError: value is not subscriptable by a string"
            from rfl] at h
          simp only [errBind] at h
          cases h
    · rintro ⟨xs, hx, _⟩
      cases hx
  | list xs =>
    constructor
    · intro h
      unfold hasResults at h
      split at h
      · cases Except.ok.inj h
      · rw [show pyIn "results" (PyVal.list xs)
          = .ok (xs.any fun x => match x with
              | .str s => s == "results" | _ => false) from rfl] at h
        simp only [okBind] at h
        split at h
        · cases Except.ok.inj h
        · rw [show pyKey (PyVal.list xs) "results"
            = .error "TypeError: value is not subscriptable by a string"
            from rfl] at h
          simp only [errBind] at h
          cases h
    · rintro ⟨ys, hy, _⟩
      cases hy

theorem includeResp_some_iff (r : Except String PyVal)
    (hwf : ∀ v, r = .ok v → respWF v) :
    (∃ v, includeResp r = some v) ↔
      ∃ v xs, r = .ok v ∧ lookupField v "results" = some (.list xs)
        ∧ xs ≠ [] := by
  cases r with
  | error e =>
    constructor
    · rintro ⟨v, hv⟩
      cases hv
    · rintro ⟨v, xs, hv, _⟩
      cases hv
  | ok v =>
    have hiff := hasResults_true_iff v (hwf v rfl)
    have hinc : includeResp (Except.ok v)
        = (match hasResults v with
            | Except.ok true => some v
            | _ => Option.none) := rfl
    constructor
    · rintro ⟨w, hw⟩
      rw [hinc] at hw
      rcases hh : hasResults v with e | b
      · rw [hh] at hw
        cases hw
      · rw [hh] at hw
        cases b with
        | false => cases hw
        | true =>
          obtain ⟨xs, hx, hne⟩ := hiff.mp hh
          exact ⟨v, xs, rfl, hx, hne⟩
    · rintro ⟨v2, xs, hv2, hx, hne⟩
      have hv : v2 = v := (Except.ok.inj hv2).symm
      subst hv
      refine ⟨v2, ?_⟩
      rw [hinc, hiff.mpr ⟨xs, hx, hne⟩]

theorem collect_mem (backend : String → String → Nat → Except String PyVal)
    (query : String) (limit : Nat) (dbs : List String)
    (acc : List (String × PyVal)) (db : String) :
    db ∈ (dbs.foldl (collectStep backend query limit) acc).map Prod.fst ↔
      db ∈ acc.map Prod.fst
        ∨ (db ∈ dbs ∧ ∃ v,
            includeResp (backend query db (max 2 (limit / 2))) = some v) := by
  induction dbs generalizing acc with
  | nil => simp
  | cons d rest ih =>
    simp only [List.foldl_cons]
    rw [ih]
    by_cases hdb : db = d
    · subst hdb
      unfold collectStep
      cases hi : includeResp (backend query db (max 2 (limit / 2))) with
      | some v => simp [List.mem_cons, hi]
      | none => simp [List.mem_cons, hi]
    · unfold collectStep
      cases hi : includeResp (backend query d (max 2 (limit / 2))) with
      | some v =>
        simp only [List.map_append, List.mem_append, List.map_cons,
          List.map_nil, List.mem_cons, List.mem_singleton, List.mem_nil_iff,
          or_false]
        constructor
        · rintro ((ha | hd) | hrest)
          · exact Or.inl ha
          · cases hdb hd
          · exact Or.inr ⟨Or.inr hrest.1, hrest.2⟩
        · rintro (ha | ⟨hm | hm, hp⟩)
          · exact Or.inl (Or.inl ha)
          · cases hdb hm
          · exact Or.inr ⟨hm, hp⟩
      | none =>
        constructor
        · rintro (ha | hrest)
          · exact Or.inl ha
          · exact Or.inr ⟨List.mem_cons_of_mem _ hrest.1, hrest.2⟩
        · rintro (ha | ⟨hm, hp⟩)
          · exact Or.inl ha
          · rcases List.mem_cons.mp hm with hm | hm
            · cases hdb hm
            · exact Or.inr ⟨hm, hp⟩

/-- C1: in `"all"` mode a sub-resource appears in the combined results (and
hence gets a section of the Combined Report) iff its backend call returns a
response with at least one record — sub-resources that raise or return zero
records are omitted and `run` does not fail — and the report is the
formatted combined results (or the "no results anywhere" message when
nothing was kept), while in single-database mode a zero-record response
yields the explicit "No results found" message naming that database. -/
theorem C1_combined_report_inclusion :
    (∀ backend query limit db, db ∈ dbToSearch →
       (∀ v, backend query db (max 2 (limit / 2)) = .ok v → respWF v) →
       (db ∈ (collectAll backend query limit).map Prod.fst ↔
         ∃ v xs, backend query db (max 2 (limit / 2)) = .ok v
           ∧ lookupField v "results" = some (.list xs) ∧ xs ≠ []))
    ∧ (∀ backend query limit, (collectAll backend query limit).isEmpty = false →
        runE backend query "all" limit
          = formatMultiResults (collectAll backend query limit))
    ∧ (∀ backend query limit, (collectAll backend query limit).isEmpty = true →
        FDA.run backend query "all" limit = noResultsAllMsg query)
    ∧ (∀ backend query db limit fs, db ≠ "all" →
        backend query db limit = .ok (.dict fs) →
        dictLookup fs "results" = some (.list []) →
        FDA.run backend query db limit = noResultsSingleMsg db query) := by
  refine ⟨?_, ?_, ?_, ?_⟩
  · intro backend query limit db hmem hwf
    unfold collectAll
    rw [collect_mem]
    simp only [List.map_nil, List.not_mem_nil, false_or, hmem, true_and]
    exact includeResp_some_iff _ hwf
  · intro backend query limit h
    unfold runE
    rw [if_pos rfl, if_pos h]
  · intro backend query limit h
    unfold FDA.run runE
    rw [if_pos rfl, if_neg (by rw [h]; simp)]
  · intro backend query db limit fs hdb hok hl
    unfold FDA.run runE
    rw [if_neg hdb, hok, okBind, hasResults_dict_some fs _ hl, okBind]
    rfl

theorem C1_combined_report_inclusion_witness :
    ("recall" ∈ (collectAll
        (fun _ _ _ => .ok (.dict [("results", .list [.dict []])])) "pump" 5).map
          Prod.fst ↔
      ∃ v xs, (fun (_ _ : String) (_ : Nat) =>
          (.ok (.dict [("results", .list [.dict []])]) : Except String PyVal))
            "pump" "recall" (max 2 (5 / 2)) = .ok v
        ∧ lookupField v "results" = some (.list xs) ∧ xs ≠ []) :=
  C1_combined_report_inclusion.1
    (fun _ _ _ => .ok (.dict [("results", .list [.dict []])])) "pump" 5 "recall"
    (by decide)
    (by
      intro v hv
      cases hv
      intro w hw
      simp only [lookupField, dictLookup] at hw
      exact ⟨_, by cases hw; rfl⟩)

theorem predicatePart510k_ok (fs : List (String × PyVal))
    (hwf : wfNestedHead (dictLookup fs "predicates") = true) :
    ∃ p, predicatePart510k (.dict fs) = .ok p := by
  unfold predicatePart510k
  simp only [pyIn_dict, okBind, dictLookup_isSome_eq_any]
  cases hl : dictLookup fs "predicates" with
  | none =>
    refine ⟨"Not specified", ?_⟩
    rw [if_neg (by simp)]
  | some v =>
    rw [hl] at hwf
    rw [if_pos (show (some v).isSome = true from rfl),
      pyKey_dict_some _ _ _ hl, okBind]
    cases ht : truthy v with
    | false =>
      refine ⟨"Not specified", ?_⟩
      rw [if_neg (by simp [ht])]
    | true =>
      cases v with
      | list xs =>
        cases xs with
        | nil => cases ht
        | cons d rest =>
          cases d with
          | dict dfs =>
            rw [ite_tt,
              show pyIdx (PyVal.list (PyVal.dict dfs :: rest)) 0
                = .ok (.dict dfs) from rfl, okBind, pyGet_dict, okBind,
              pyGet_dict, okBind]
            by_cases hc : (truthy ((dictLookup dfs "k_number").getD (.str ""))
                && truthy ((dictLookup dfs "device_name").getD (.str "")))
                = true
            · exact ⟨_, by rw [if_pos hc]⟩
            · exact ⟨_, by rw [if_neg hc]⟩
          | none => simp [wfNestedHead, ht] at hwf
          | bool b => simp [wfNestedHead, ht] at hwf
          | int n => simp [wfNestedHead, ht] at hwf
          | str s => simp [wfNestedHead, ht] at hwf
          | list ys => simp [wfNestedHead, ht] at hwf
      | none => cases ht
      | bool b => simp [wfNestedHead, ht] at hwf
      | int n => simp [wfNestedHead, ht] at hwf
      | str s => simp [wfNestedHead, ht] at hwf
      | dict gs => simp [wfNestedHead, ht] at hwf

theorem summaryPart510k_ok (fs : List (String × PyVal))
    (hwf : wfStrOpt (dictLookup fs "summary") = true) :
    ∃ p, summaryPart510k (.dict fs) = .ok p := by
  unfold summaryPart510k
  simp only [pyIn_dict, okBind, dictLookup_isSome_eq_any]
  cases hl : dictLookup fs "summary" with
  | none =>
    refine ⟨"", ?_⟩
    rw [if_neg (by simp)]
  | some v =>
    rw [hl] at hwf
    rw [if_pos (show (some v).isSome = true from rfl),
      pyKey_dict_some _ _ _ hl, okBind]
    cases ht : truthy v with
    | false =>
      refine ⟨"", ?_⟩
      rw [if_neg (by simp [ht])]
    | true =>
      cases v with
      | str s =>
        rw [ite_tt, show pyLen (PyVal.str s) = .ok s.length from rfl,
          okBind]
        by_cases hlen : 300 < s.length
        · exact ⟨_, by rw [if_pos hlen]; rfl⟩
        · exact ⟨_, by rw [if_neg hlen]⟩
      | none => cases ht
      | bool b => simp [wfStrOpt, ht] at hwf
      | int n => simp [wfStrOpt, ht] at hwf
      | list ys => simp [wfStrOpt, ht] at hwf
      | dict gs => simp [wfStrOpt, ht] at hwf

theorem asStrList_allStr (xs : List PyVal) (h : allStr xs = true) :
    ∃ ss, asStrList xs = .ok ss := by
  induction xs with
  | nil => exact ⟨[], rfl⟩
  | cons x rest ih =>
    unfold allStr at h ih
    rw [List.all_cons, Bool.and_eq_true] at h
    obtain ⟨ss, hss⟩ := ih h.2
    cases x with
    | str s => exact ⟨s :: ss, by unfold asStrList; rw [hss]; rfl⟩
    | none => cases h.1
    | bool b => cases h.1
    | int n => cases h.1
    | list ys => cases h.1
    | dict gs => cases h.1

theorem pyJoin_allStr (sep : String) (xs : List PyVal) (h : allStr xs = true) :
    ∃ s, pyJoin sep (.list xs) = .ok s := by
  obtain ⟨ss, hss⟩ := asStrList_allStr xs h
  exact ⟨joinSep sep ss, by
    rw [show pyJoin sep (PyVal.list xs)
      = (asStrList xs >>= fun ss2 => .ok (joinSep sep ss2)) from rfl, hss,
      okBind]⟩

theorem devicePartEvent_wf (fs : List (String × PyVal))
    (hwf : wfNestedHead (dictLookup fs "device") = true) :
    ∃ dfs, devicePartEvent (.dict fs) = .ok (.dict dfs)
      ∧ (dictLookup fs "device" = Option.none → dfs = []) := by
  unfold devicePartEvent
  simp only [pyIn_dict, okBind, dictLookup_isSome_eq_any]
  cases hl : dictLookup fs "device" with
  | none =>
    refine ⟨[], ?_, fun _ => rfl⟩
    rw [if_neg (by simp)]
  | some v =>
    rw [hl] at hwf
    rw [if_pos (show (some v).isSome = true from rfl),
      pyKey_dict_some _ _ _ hl, okBind]
    cases ht : truthy v with
    | false =>
      refine ⟨[], ?_, fun hn => by cases hn⟩
      rw [if_neg (by simp [ht])]
    | true =>
      cases v with
      | list xs =>
        cases xs with
        | nil => cases ht
        | cons d rest =>
          cases d with
          | dict dfs =>
            refine ⟨dfs, ?_, fun hn => by cases hn⟩
            rw [ite_tt]
            rfl
          | none => simp [wfNestedHead, ht] at hwf
          | bool b => simp [wfNestedHead, ht] at hwf
          | int n => simp [wfNestedHead, ht] at hwf
          | str s => simp [wfNestedHead, ht] at hwf
          | list ys => simp [wfNestedHead, ht] at hwf
      | none => cases ht
      | bool b => simp [wfNestedHead, ht] at hwf
      | int n => simp [wfNestedHead, ht] at hwf
      | str s => simp [wfNestedHead, ht] at hwf
      | dict gs => simp [wfNestedHead, ht] at hwf

theorem sourcePartEvent_ok (fs : List (String × PyVal)) :
    ∃ p, sourcePartEvent (.dict fs) = .ok p := by
  unfold sourcePartEvent
  simp only [pyIn_dict, okBind, dictLookup_isSome_eq_any]
  cases hl : dictLookup fs "source_type" with
  | none =>
    refine ⟨"", ?_⟩
    rw [if_neg (by simp)]
  | some v =>
    exact ⟨_, by
      rw [if_pos (show (some v).isSome = true from rfl),
        pyKey_dict_some _ _ _ hl, okBind]⟩

theorem problemsPartEvent_ok (fs : List (String × PyVal))
    (hwf : wfStrListOpt (dictLookup fs "device_problem") = true) :
    ∃ p, problemsPartEvent (.dict fs) = .ok p := by
  unfold problemsPartEvent
  simp only [pyIn_dict, okBind, dictLookup_isSome_eq_any]
  cases hl : dictLookup fs "device_problem" with
  | none =>
    refine ⟨"", ?_⟩
    rw [if_neg (by simp)]
  | some v =>
    rw [hl] at hwf
    rw [if_pos (show (some v).isSome = true from rfl),
      pyKey_dict_some _ _ _ hl, okBind]
    cases ht : truthy v with
    | false =>
      refine ⟨"", ?_⟩
      rw [if_neg (by simp [ht])]
    | true =>
      cases v with
      | list xs =>
        have hall : allStr xs = true := by
          simpa [wfStrListOpt, ht] using hwf
        obtain ⟨s, hs⟩ := pyJoin_allStr ", " xs hall
        exact ⟨_, by rw [ite_tt, hs, okBind]⟩
      | none => cases ht
      | bool b => simp [wfStrListOpt, ht] at hwf
      | int n => simp [wfStrListOpt, ht] at hwf
      | str s => simp [wfStrListOpt, ht] at hwf
      | dict gs => simp [wfStrListOpt, ht] at hwf

theorem outcomesPartEvent_ok (fs : List (String × PyVal))
    (hwf : wfPatient (dictLookup fs "patient") = true) :
    ∃ p, outcomesPartEvent (.dict fs) = .ok p := by
  unfold outcomesPartEvent
  simp only [pyIn_dict, okBind, dictLookup_isSome_eq_any]
  cases hl : dictLookup fs "patient" with
  | none =>
    refine ⟨"", ?_⟩
    rw [if_neg (by simp)]
  | some v =>
    rw [hl] at hwf
    rw [if_pos (show (some v).isSome = true from rfl),
      pyKey_dict_some _ _ _ hl, okBind]
    cases ht : truthy v with
    | false =>
      refine ⟨"", ?_⟩
      rw [if_neg (by simp [ht])]
    | true =>
      cases v with
      | list xs =>
        cases xs with
        | nil => cases ht
        | cons p0 rest =>
          cases p0 with
          | dict pfs =>
            rw [ite_tt,
              show pyIdx (PyVal.list (PyVal.dict pfs :: rest)) 0
                = .ok (.dict pfs) from rfl, okBind]
            simp only [pyIn_dict, okBind, dictLookup_isSome_eq_any]
            cases hl2 : dictLookup pfs "sequence_number_outcome" with
            | none =>
              refine ⟨"", ?_⟩
              rw [if_neg (by simp)]
            | some w =>
              have hws : ∃ ws, w = PyVal.list ws ∧ allStr ws = true := by
                have h2 : (match dictLookup pfs "sequence_number_outcome" with
                    | Option.none => true
                    | some w =>
                      match w with
                      | PyVal.list ws => allStr ws
                      | _ => false) = true := by
                  simpa [wfPatient, ht] using hwf
                rw [hl2] at h2
                cases w with
                | list ws => exact ⟨ws, rfl, h2⟩
                | none => cases h2
                | bool b => cases h2
                | int n => cases h2
                | str s => cases h2
                | dict gs => cases h2
              obtain ⟨ws, rfl, hall⟩ := hws
              obtain ⟨s, hs⟩ := pyJoin_allStr ", " ws hall
              exact ⟨_, by
                rw [if_pos (show (some (PyVal.list ws)).isSome = true from rfl),
                  pyKey_dict_some _ _ _ hl2, okBind, hs, okBind]⟩
          | none => simp [wfPatient, ht] at hwf
          | bool b => simp [wfPatient, ht] at hwf
          | int n => simp [wfPatient, ht] at hwf
          | str s => simp [wfPatient, ht] at hwf
          | list ys => simp [wfPatient, ht] at hwf
      | none => cases ht
      | bool b => simp [wfPatient, ht] at hwf
      | int n => simp [wfPatient, ht] at hwf
      | str s => simp [wfPatient, ht] at hwf
      | dict gs => simp [wfPatient, ht] at hwf

theorem mdrLoop_ok (es : List PyVal) (h : es.all wfMdrEntry = true) :
    ∃ s, mdrLoop es = .ok s := by
  induction es with
  | nil => exact ⟨"", rfl⟩
  | cons e rest ih =>
    rw [List.all_cons, Bool.and_eq_true] at h
    obtain ⟨r, hr⟩ := ih h.2
    have he := h.1
    cases e with
    | dict efs =>
      unfold mdrLoop
      have hpart : ∃ p, mdrEntryPart (PyVal.dict efs) = .ok p := by
        unfold mdrEntryPart
        rw [pyGet_dict, okBind]
        cases hd : isStrD ((dictLookup efs "text_type_code").getD PyVal.none) with
        | false => exact ⟨"", by rw [ite_ft]⟩
        | true =>
          rw [ite_tt, pyGet_dict, okBind]
          have hstr : ∃ t, (dictLookup efs "text").getD
              (.str "No description available") = PyVal.str t := by
            have he2 : (match dictLookup efs "text" with
                | Option.none => true
                | some w =>
                  match w with | PyVal.str _ => true | _ => false) = true := he
            cases hlt : dictLookup efs "text" with
            | none => exact ⟨"No description available", rfl⟩
            | some w =>
              rw [hlt] at he2
              cases w with
              | str t => exact ⟨t, rfl⟩
              | none => exact Bool.noConfusion he2
              | bool b => exact Bool.noConfusion he2
              | int n => exact Bool.noConfusion he2
              | list ys => exact Bool.noConfusion he2
              | dict gs => exact Bool.noConfusion he2
          obtain ⟨t, hts⟩ := hstr
          rw [hts, show pyLen (PyVal.str t) = .ok t.length from rfl, okBind]
          by_cases hlen : 300 < t.length
          · exact ⟨_, by rw [if_pos hlen]; rfl⟩
          · exact ⟨_, by rw [if_neg hlen]; rfl⟩
      obtain ⟨p, hp⟩ := hpart
      refine ⟨p ++ r, ?_⟩
      rw [hp, okBind, hr, okBind]
    | none => cases he
    | bool b => cases he
    | int n => cases he
    | str s => cases he
    | list ys => cases he

theorem mdrPartEvent_ok (fs : List (String × PyVal))
    (hwf : wfMdr (dictLookup fs "mdr_text") = true) :
    ∃ p, mdrPartEvent (.dict fs) = .ok p := by
  unfold mdrPartEvent
  simp only [pyIn_dict, okBind, dictLookup_isSome_eq_any]
  cases hl : dictLookup fs "mdr_text" with
  | none =>
    refine ⟨"", ?_⟩
    rw [if_neg (by simp)]
  | some v =>
    rw [hl] at hwf
    rw [if_pos (show (some v).isSome = true from rfl),
      pyKey_dict_some _ _ _ hl, okBind]
    cases ht : truthy v with
    | false =>
      refine ⟨"", ?_⟩
      rw [if_neg (by simp [ht])]
    | true =>
      cases v with
      | list es =>
        have hall : es.all wfMdrEntry = true := by
          simpa [wfMdr, ht] using hwf
        obtain ⟨s, hs⟩ := mdrLoop_ok es hall
        exact ⟨s, by rw [ite_tt, show pyIter (PyVal.list es) = .ok es from rfl,
          okBind, hs]⟩
      | none => cases ht
      | bool b => simp [wfMdr, ht] at hwf
      | int n => simp [wfMdr, ht] at hwf
      | str s => simp [wfMdr, ht] at hwf
      | dict gs => simp [wfMdr, ht] at hwf

theorem formatEventItem_wf (fs : List (String × PyVal))
    (hwf : wfEventItem (.dict fs) = true) :
    ∃ dfs sourceP problemsP outcomesP mdrP,
      devicePartEvent (.dict fs) = .ok (.dict dfs)
      ∧ (dictLookup fs "device" = Option.none → dfs = [])
      ∧ formatEventItem (.dict fs) = .ok ("### "
          ++ pyStr ((dictLookup dfs "brand_name").getD (.str "Unknown Device"))
          ++ " Adverse Event\n"
          ++ "- **Manufacturer:** "
          ++ pyStr ((dictLookup dfs "manufacturer_d_name").getD
              (.str "Unknown Manufacturer")) ++ "\n"
          ++ "- **Event Type:** "
          ++ pyStr ((dictLookup fs "event_type").getD
              (.str "Unknown Event Type")) ++ "\n"
          ++ "- **Report Date:** "
          ++ pyStr ((dictLookup fs "date_received").getD (.str "Unknown Date"))
          ++ "\n"
          ++ sourceP ++ problemsP ++ outcomesP ++ mdrP
          ++ "\n---\n\n") := by
  unfold wfEventItem at hwf
  simp only [Bool.and_eq_true] at hwf
  obtain ⟨⟨⟨h1, h2⟩, h3⟩, h4⟩ := hwf
  obtain ⟨dfs, hdev, hdev0⟩ := devicePartEvent_wf fs h1
  obtain ⟨sp, hsp⟩ := sourcePartEvent_ok fs
  obtain ⟨pp, hpp⟩ := problemsPartEvent_ok fs h2
  obtain ⟨op, hop⟩ := outcomesPartEvent_ok fs h3
  obtain ⟨mp, hmp⟩ := mdrPartEvent_ok fs h4
  refine ⟨dfs, sp, pp, op, mp, hdev, hdev0, ?_⟩
  unfold formatEventItem
  rw [hdev, okBind, pyGet_dict, okBind, pyGet_dict, okBind, pyGet_dict, okBind,
    pyGet_dict, okBind, hsp, okBind, hpp, okBind, hop, okBind, hmp, okBind]

theorem formatItems_all_ok (f : PyVal → Except String String)
    (items : List PyVal) (h : ∀ item ∈ items, ∃ s, f item = .ok s) :
    ∃ s, formatItems f items = .ok s := by
  induction items with
  | nil => exact ⟨"", rfl⟩
  | cons a rest ih =>
    obtain ⟨x, hx⟩ := h a (List.mem_cons_self _ _)
    obtain ⟨r, hr⟩ := ih (fun i hi => h i (List.mem_cons_of_mem _ hi))
    exact ⟨x ++ r, by
      rw [show formatItems f (a :: rest)
        = (f a >>= fun s2 => formatItems f rest >>= fun r2 => .ok (s2 ++ r2))
        from rfl, hx, okBind, hr, okBind]⟩

theorem formatItems_mem_substr (f : PyVal → Except String String)
    (items : List PyVal) (item : PyVal) (s t : String)
    (hs : formatItems f items = .ok s) (hmem : item ∈ items)
    (ht : f item = .ok t) : hasSubstr s t = true := by
  induction items generalizing s with
  | nil => cases hmem
  | cons a rest ih =>
    rw [show formatItems f (a :: rest)
      = (f a >>= fun s2 => formatItems f rest >>= fun r2 => .ok (s2 ++ r2))
      from rfl] at hs
    rcases (bindOkIff _ _ _).mp hs with ⟨x, hx, hs2⟩
    rcases (bindOkIff _ _ _).mp hs2 with ⟨r, hr, hok⟩
    cases hok
    rcases List.mem_cons.mp hmem with hmem2 | hmem2
    · subst hmem2
      rw [ht] at hx
      have hxt : t = x := Except.ok.inj hx
      subst hxt
      exact hasSubstr_append_left _ _ _ (hasSubstr_self _)
    · exact hasSubstr_append_right _ _ _ (ih _ hr hmem2)

theorem format510kItem_wf (fs : List (String × PyVal))
    (hwf : wf510kItem (.dict fs) = true) :
    ∃ pred sump, format510kItem (.dict fs) = .ok ("### "
      ++ pyStr ((dictLookup fs "device_name").getD (.str "Unknown Device"))
      ++ " (K" ++ pyStr ((dictLookup fs "k_number").getD (.str "Unknown"))
      ++ ")\n"
      ++ "- **Manufacturer:** " ++ pyStr (applicantValue fs) ++ "\n"
      ++ "- **Clearance Date:** "
      ++ pyStr ((dictLookup fs "decision_date").getD (.str "Unknown Date"))
      ++ "\n"
      ++ "- **Product Code:** "
      ++ pyStr ((dictLookup fs "product_code").getD (.str "Unknown")) ++ "\n"
      ++ "- **Device Class:** "
      ++ pyStr ((dictLookup fs "device_class").getD (.str "Unknown")) ++ "\n"
      ++ "- **Predicate Device:** " ++ pred ++ "\n\n"
      ++ sump
      ++ "---\n\n") := by
  unfold wf510kItem at hwf
  rw [Bool.and_eq_true] at hwf
  obtain ⟨pred, hpred⟩ := predicatePart510k_ok fs hwf.1
  obtain ⟨sump, hsump⟩ := summaryPart510k_ok fs hwf.2
  refine ⟨pred, sump, ?_⟩
  unfold format510kItem
  rw [pyGet_dict, okBind, pyGet_dict, okBind, getApplicantName_dict, okBind,
    pyGet_dict, okBind, pyGet_dict, okBind, pyGet_dict, okBind, hpred, okBind,
    hsump, okBind]

theorem probeValue_skip (fs : List (String × PyVal)) (f : String)
    (rest : List String)
    (h : ∀ w, dictLookup fs f = some w → truthy w = false) :
    probeValue fs (f :: rest) = probeValue fs rest := by
  have hstep : probeValue fs (f :: rest)
      = (match dictLookup fs f with
         | some v => if truthy v = true then v else probeValue fs rest
         | Option.none => probeValue fs rest) := rfl
  rw [hstep]
  cases hl : dictLookup fs f with
  | none => rfl
  | some w => simp [h w hl]

theorem applicantValue_default (fs : List (String × PyVal))
    (h1 : ∀ w, dictLookup fs "applicant" = some w → truthy w = false)
    (h2 : ∀ w, dictLookup fs "owner_operator" = some w → truthy w = false)
    (h3 : ∀ w, dictLookup fs "manufacturer" = some w → truthy w = false) :
    applicantValue fs = .str "Unknown Manufacturer" := by
  unfold applicantValue
  rw [probeValue_skip _ _ _ h1, probeValue_skip _ _ _ h2,
    probeValue_skip _ _ _ h3]
  rfl

theorem expeditedPartPma_ok (fs : List (String × PyVal)) :
    ∃ p, expeditedPartPma (.dict fs) = .ok p := by
  unfold expeditedPartPma
  simp only [pyIn_dict, okBind, dictLookup_isSome_eq_any]
  cases hl : dictLookup fs "expedited_review_flag" with
  | none =>
    refine ⟨"", ?_⟩
    rw [if_neg (by simp)]
  | some v =>
    exact ⟨_, by
      rw [if_pos (show (some v).isSome = true from rfl),
        pyKey_dict_some _ _ _ hl, okBind]⟩

theorem devicePartPma_wf (fs : List (String × PyVal))
    (hwf : wfPmaOpenfda (dictLookup fs "openfda") = true) :
    ∃ dn, devicePartPma (.dict fs) = .ok dn
      ∧ (dictLookup fs "openfda" = Option.none → dn = "Unknown Device") := by
  unfold devicePartPma
  simp only [pyIn_dict, okBind, dictLookup_isSome_eq_any]
  cases hl : dictLookup fs "openfda" with
  | none =>
    refine ⟨"Unknown Device", ?_, fun _ => rfl⟩
    rw [if_neg (by simp)]
  | some v =>
    rw [hl] at hwf
    rw [if_pos (show (some v).isSome = true from rfl),
      pyKey_dict_some _ _ _ hl, okBind]
    cases v with
    | dict ofs =>
      simp only [pyIn_dict, okBind, dictLookup_isSome_eq_any]
      have h2 : (match dictLookup ofs "device_name" with
          | Option.none => true
          | some w =>
            if truthy w = true then
              match w with
              | PyVal.list _ => true
              | _ => false
            else true) = true := by
        simpa [wfPmaOpenfda] using hwf
      cases hl2 : dictLookup ofs "device_name" with
      | none =>
        refine ⟨"Unknown Device", ?_, fun hn => by cases hn⟩
        rw [if_neg (by simp)]
      | some w =>
        rw [hl2] at h2
        rw [if_pos (show (some w).isSome = true from rfl),
          pyKey_dict_some _ _ _ hl2, okBind]
        cases ht : truthy w with
        | false =>
          refine ⟨"Unknown Device", ?_, fun hn => by cases hn⟩
          rw [if_neg (by simp [ht])]
        | true =>
          cases w with
          | list xs =>
            cases xs with
            | nil => cases ht
            | cons d rest2 =>
              refine ⟨pyStr d, ?_, fun hn => by cases hn⟩
              rw [ite_tt,
                show pyIdx (PyVal.list (d :: rest2)) 0 = .ok d from rfl,
                okBind]
          | none => cases ht
          | bool b => simp [ht] at h2
          | int n => simp [ht] at h2
          | str t => simp [ht] at h2
          | dict gs => simp [ht] at h2
    | none => exact Bool.noConfusion hwf
    | bool b => exact Bool.noConfusion hwf
    | int n => exact Bool.noConfusion hwf
    | str t => exact Bool.noConfusion hwf
    | list ys => exact Bool.noConfusion hwf

theorem formatPmaItem_wf (fs : List (String × PyVal))
    (hwf : wfPmaItem (.dict fs) = true) :
    ∃ dn exp, formatPmaItem (.dict fs) = .ok ("### " ++ dn ++ " ("
        ++ pyStr ((dictLookup fs "pma_number").getD (.str "Unknown")) ++ ")\n"
        ++ "- **Manufacturer:** "
        ++ pyStr ((dictLookup fs "applicant").getD
            (.str "Unknown Manufacturer")) ++ "\n"
        ++ "- **Approval Date:** "
        ++ pyStr ((dictLookup fs "approval_date").getD (.str "Unknown Date"))
        ++ "\n"
        ++ "- **Product Code:** "
        ++ pyStr ((dictLookup fs "product_code").getD (.str "Unknown")) ++ "\n"
        ++ exp
        ++ "\n---\n\n")
      ∧ (dictLookup fs "openfda" = Option.none → dn = "Unknown Device") := by
  unfold wfPmaItem at hwf
  obtain ⟨dn, hdn, hdn0⟩ := devicePartPma_wf fs hwf
  obtain ⟨exp, hexp⟩ := expeditedPartPma_ok fs
  refine ⟨dn, exp, ?_, hdn0⟩
  unfold formatPmaItem
  rw [hdn, okBind, pyGet_dict, okBind, pyGet_dict, okBind, pyGet_dict, okBind,
    pyGet_dict, okBind, hexp, okBind]

theorem vmPartRecall_ok (fs : List (String × PyVal)) :
    ∃ p, vmPartRecall (.dict fs) = .ok p := by
  unfold vmPartRecall
  simp only [pyIn_dict, okBind, dictLookup_isSome_eq_any]
  cases hl : dictLookup fs "voluntary_mandated" with
  | none =>
    refine ⟨"", ?_⟩
    rw [if_neg (by simp)]
  | some v =>
    exact ⟨_, by
      rw [if_pos (show (some v).isSome = true from rfl),
        pyKey_dict_some _ _ _ hl, okBind]⟩

theorem statusPartRecall_ok (fs : List (String × PyVal)) :
    ∃ p, statusPartRecall (.dict fs) = .ok p := by
  unfold statusPartRecall
  simp only [pyIn_dict, okBind, dictLookup_isSome_eq_any]
  cases hl : dictLookup fs "status" with
  | none =>
    refine ⟨"", ?_⟩
    rw [if_neg (by simp)]
  | some v =>
    exact ⟨_, by
      rw [if_pos (show (some v).isSome = true from rfl),
        pyKey_dict_some _ _ _ hl, okBind]⟩

theorem formatRecallItem_wf (fs : List (String × PyVal)) :
    ∃ vm st, formatRecallItem (.dict fs) = .ok ("### "
        ++ pyStr ((dictLookup fs "product_description").getD
            (.str "Unknown Product")) ++ "\n"
        ++ "- **Manufacturer:** "
        ++ pyStr ((dictLookup fs "recalling_firm").getD
            (.str "Unknown Manufacturer")) ++ "\n"
        ++ "- **Date Initiated:** "
        ++ pyStr ((dictLookup fs "recall_initiation_date").getD
            (.str "Unknown Date")) ++ "\n"
        ++ "- **Classification:** "
        ++ pyStr ((dictLookup fs "classification").getD (.str "Unknown"))
        ++ "\n"
        ++ "- **Reason for Recall:** "
        ++ pyStr ((dictLookup fs "reason_for_recall").getD
            (.str "Unknown Reason")) ++ "\n"
        ++ vm ++ st
        ++ "\n---\n\n") := by
  obtain ⟨vm, hvm⟩ := vmPartRecall_ok fs
  obtain ⟨st, hst⟩ := statusPartRecall_ok fs
  refine ⟨vm, st, ?_⟩
  unfold formatRecallItem
  rw [pyGet_dict, okBind, pyGet_dict, okBind, pyGet_dict, okBind, pyGet_dict,
    okBind, pyGet_dict, okBind, hvm, okBind, hst, okBind]

theorem estPartReg_ok (fs : List (String × PyVal)) :
    ∃ p, estPartReg (.dict fs) = .ok p := by
  unfold estPartReg
  simp only [pyIn_dict, okBind, dictLookup_isSome_eq_any]
  cases hl : dictLookup fs "establishment_type" with
  | none =>
    refine ⟨"", ?_⟩
    rw [if_neg (by simp)]
  | some v =>
    exact ⟨_, by
      rw [if_pos (show (some v).isSome = true from rfl),
        pyKey_dict_some _ _ _ hl, okBind]⟩

theorem collectCodes_allStr (ps : List PyVal) (h : ps.all wfRegProduct = true) :
    ∃ codes, collectCodes ps = .ok codes ∧ allStr codes = true := by
  induction ps with
  | nil => exact ⟨[], rfl, rfl⟩
  | cons p rest ih =>
    rw [List.all_cons, Bool.and_eq_true] at h
    obtain ⟨codes, hc, hs⟩ := ih h.2
    have hp := h.1
    cases p with
    | dict pfs =>
      have hstr : ∃ t, (dictLookup pfs "product_code").getD (.str "")
          = PyVal.str t := by
        have h2 : (match dictLookup pfs "product_code" with
            | Option.none => true
            | some w =>
              match w with | PyVal.str _ => true | _ => false) = true := hp
        cases hlt : dictLookup pfs "product_code" with
        | none => exact ⟨"", rfl⟩
        | some w =>
          rw [hlt] at h2
          cases w with
          | str t => exact ⟨t, rfl⟩
          | none => exact Bool.noConfusion h2
          | bool b => exact Bool.noConfusion h2
          | int n => exact Bool.noConfusion h2
          | list ys => exact Bool.noConfusion h2
          | dict gs => exact Bool.noConfusion h2
      obtain ⟨t, ht⟩ := hstr
      refine ⟨PyVal.str t :: codes, ?_, ?_⟩
      · rw [show collectCodes (PyVal.dict pfs :: rest)
            = (pyGet (PyVal.dict pfs) "product_code" (.str "") >>= fun c =>
               collectCodes rest >>= fun r => .ok (c :: r)) from rfl,
          pyGet_dict, okBind, ht, hc, okBind]
      · simpa [allStr] using hs
    | none => exact Bool.noConfusion hp
    | bool b => exact Bool.noConfusion hp
    | int n => exact Bool.noConfusion hp
    | str u => exact Bool.noConfusion hp
    | list ys => exact Bool.noConfusion hp

theorem allStr_of_subset (xs ys : List PyVal) (hsub : ys ⊆ xs)
    (h : allStr xs = true) : allStr ys = true := by
  unfold allStr at h ⊢
  rw [List.all_eq_true] at h ⊢
  intro x hx
  exact h x (hsub hx)

theorem uniqueCodes_subset (codes : List PyVal) : uniqueCodes codes ⊆ codes := by
  intro x hx
  exact (List.mem_filter.mp (List.pwFilter_subset _ hx)).1

theorem productsPartReg_ok (fs : List (String × PyVal))
    (hwf : wfRegProducts (dictLookup fs "products") = true) :
    ∃ p, productsPartReg (.dict fs) = .ok p := by
  unfold productsPartReg
  simp only [pyIn_dict, okBind, dictLookup_isSome_eq_any]
  cases hl : dictLookup fs "products" with
  | none =>
    refine ⟨"", ?_⟩
    rw [if_neg (by simp)]
  | some v =>
    rw [hl] at hwf
    rw [if_pos (show (some v).isSome = true from rfl),
      pyKey_dict_some _ _ _ hl, okBind]
    cases ht : truthy v with
    | false =>
      refine ⟨"", ?_⟩
      rw [if_neg (by simp [ht])]
    | true =>
      cases v with
      | list ps =>
        have hall : ps.all wfRegProduct = true := by
          simpa [wfRegProducts, ht] using hwf
        obtain ⟨codes, hc, hs⟩ := collectCodes_allStr ps hall
        rw [ite_tt, show pyIter (PyVal.list ps) = .ok ps from rfl, okBind,
          hc, okBind]
        have hu : allStr (uniqueCodes codes) = true :=
          allStr_of_subset codes _ (uniqueCodes_subset codes) hs
        by_cases he : (uniqueCodes codes).isEmpty = true
        · exact ⟨"", by rw [if_pos he]⟩
        · obtain ⟨j, hj⟩ := pyJoin_allStr ", " (uniqueCodes codes) hu
          exact ⟨_, by rw [if_neg he, hj, okBind]⟩
      | none => cases ht
      | bool b => simp [wfRegProducts, ht] at hwf
      | int n => simp [wfRegProducts, ht] at hwf
      | str u => simp [wfRegProducts, ht] at hwf
      | dict gs => simp [wfRegProducts, ht] at hwf

theorem formatRegistrationItem_wf (fs : List (String × PyVal))
    (hwf : wfRegistrationItem (.dict fs) = true) :
    ∃ est prod, formatRegistrationItem (.dict fs) = .ok ("### "
        ++ pyStr ((dictLookup fs "name").getD (.str "Unknown Company"))
        ++ " (Reg# "
        ++ pyStr ((dictLookup fs "registration_number").getD (.str "Unknown"))
        ++ ")\n"
        ++ "- **Address:** "
        ++ pyStr ((dictLookup fs "address_line_1").getD (.str "")) ++ ", "
        ++ pyStr ((dictLookup fs "city").getD (.str "")) ++ ", "
        ++ pyStr ((dictLookup fs "state").getD (.str "")) ++ ", "
        ++ pyStr ((dictLookup fs "country_code").getD (.str "")) ++ "\n"
        ++ est ++ prod
        ++ "\n---\n\n") := by
  unfold wfRegistrationItem at hwf
  obtain ⟨est, hest⟩ := estPartReg_ok fs
  obtain ⟨prod, hprod⟩ := productsPartReg_ok fs hwf
  refine ⟨est, prod, ?_⟩
  unfold formatRegistrationItem
  rw [pyGet_dict, okBind, pyGet_dict, okBind, pyGet_dict, okBind, pyGet_dict,
    okBind, pyGet_dict, okBind, pyGet_dict, okBind, hest, okBind, hprod,
    okBind]

/-- C7 counterexample: a record that is a mapping but holds a malformed
nested value makes a per-sub-resource formatter raise (a `TypeError` in
CPython), contradicting "returns a string without raising ... including
arbitrarily malformed nested values": an adverse-event record whose `device`
field is the integer 5 (the code subscripts `item["device"][0]`), and a
clearance record whose `predicates` field is the integer 7 (the code
subscripts `item["predicates"][0]`). -/
theorem C7_formatter_counterexample :
    formatItems formatEventItem [PyVal.dict [("device", PyVal.int 5)]]
        = .error "TypeError: value is not subscriptable"
      ∧ formatItems format510kItem [PyVal.dict [("predicates", PyVal.int 7)]]
        = .error "TypeError: value is not subscriptable" := ⟨rfl, rfl⟩

/-- C7 (amended): for every sequence of records in which each record is a
mapping with any subset of the expected fields missing and every present
field well-formed per the field table, every per-sub-resource formatter
(clearance, approval, recall, adverse-event, registration) returns a string
without raising, and for each missing optional field the output contains the
fixed placeholder of that field ("Unknown Device", "Unknown Date",
"Unknown Manufacturer", "Unknown Event Type", "Unknown Product",
"Unknown Reason", "Unknown Company"); the formatted block of each record is
a substring of the whole output.  (Arbitrarily malformed nested values can
instead raise — see the counterexample.) -/
theorem C7_amended_formatters :
    (∀ items, (∀ item ∈ items, wf510kItem item = true) →
       ∃ s, formatItems format510kItem items = .ok s)
    ∧ (∀ items, (∀ item ∈ items, wfEventItem item = true) →
       ∃ s, formatItems formatEventItem items = .ok s)
    ∧ (∀ fs s, wf510kItem (PyVal.dict fs) = true →
        format510kItem (PyVal.dict fs) = .ok s →
        ((dictLookup fs "device_name" = Option.none →
           hasSubstr s "Unknown Device" = true)
         ∧ (dictLookup fs "decision_date" = Option.none →
           hasSubstr s "Unknown Date" = true)
         ∧ ((∀ w, dictLookup fs "applicant" = some w → truthy w = false) →
           (∀ w, dictLookup fs "owner_operator" = some w → truthy w = false) →
           (∀ w, dictLookup fs "manufacturer" = some w → truthy w = false) →
           hasSubstr s "Unknown Manufacturer" = true)))
    ∧ (∀ fs s, wfEventItem (PyVal.dict fs) = true →
        formatEventItem (PyVal.dict fs) = .ok s →
        ((dictLookup fs "device" = Option.none →
           hasSubstr s "Unknown Device" = true
             ∧ hasSubstr s "Unknown Manufacturer" = true)
         ∧ (dictLookup fs "event_type" = Option.none →
           hasSubstr s "Unknown Event Type" = true)
         ∧ (dictLookup fs "date_received" = Option.none →
           hasSubstr s "Unknown Date" = true)))
    ∧ (∀ items, (∀ item ∈ items, wfPmaItem item = true) →
       ∃ s, formatItems formatPmaItem items = .ok s)
    ∧ (∀ items, (∀ item ∈ items, wfRecallItem item = true) →
       ∃ s, formatItems formatRecallItem items = .ok s)
    ∧ (∀ items, (∀ item ∈ items, wfRegistrationItem item = true) →
       ∃ s, formatItems formatRegistrationItem items = .ok s)
    ∧ (∀ fs s, wfPmaItem (PyVal.dict fs) = true →
        formatPmaItem (PyVal.dict fs) = .ok s →
        ((dictLookup fs "openfda" = Option.none →
           hasSubstr s "Unknown Device" = true)
         ∧ (dictLookup fs "applicant" = Option.none →
           hasSubstr s "Unknown Manufacturer" = true)
         ∧ (dictLookup fs "approval_date" = Option.none →
           hasSubstr s "Unknown Date" = true)))
    ∧ (∀ fs s, formatRecallItem (PyVal.dict fs) = .ok s →
        ((dictLookup fs "product_description" = Option.none →
           hasSubstr s "Unknown Product" = true)
         ∧ (dictLookup fs "recalling_firm" = Option.none →
           hasSubstr s "Unknown Manufacturer" = true)
         ∧ (dictLookup fs "recall_initiation_date" = Option.none →
           hasSubstr s "Unknown Date" = true)
         ∧ (dictLookup fs "reason_for_recall" = Option.none →
           hasSubstr s "Unknown Reason" = true)))
    ∧ (∀ fs s, wfRegistrationItem (PyVal.dict fs) = true →
        formatRegistrationItem (PyVal.dict fs) = .ok s →
        (dictLookup fs "name" = Option.none →
          hasSubstr s "Unknown Company" = true))
    ∧ (∀ f items item s t, formatItems f items = .ok s → item ∈ items →
        f item = .ok t → hasSubstr s t = true) := by
  refine ⟨?_, ?_, ?_, ?_, ?_, ?_, ?_, ?_, ?_, ?_, formatItems_mem_substr⟩
  · intro items h
    apply formatItems_all_ok
    intro item hi
    have hw := h item hi
    cases item with
    | dict fs =>
      obtain ⟨pred, sump, heq⟩ := format510kItem_wf fs hw
      exact ⟨_, heq⟩
    | none => exact Bool.noConfusion hw
    | bool b => exact Bool.noConfusion hw
    | int n => exact Bool.noConfusion hw
    | str t => exact Bool.noConfusion hw
    | list xs => exact Bool.noConfusion hw
  · intro items h
    apply formatItems_all_ok
    intro item hi
    have hw := h item hi
    cases item with
    | dict fs =>
      obtain ⟨dfs, sp, pp, op, mp, _, _, heq⟩ := formatEventItem_wf fs hw
      exact ⟨_, heq⟩
    | none => exact Bool.noConfusion hw
    | bool b => exact Bool.noConfusion hw
    | int n => exact Bool.noConfusion hw
    | str t => exact Bool.noConfusion hw
    | list xs => exact Bool.noConfusion hw
  · intro fs s hwf hok
    obtain ⟨pred, sump, heq⟩ := format510kItem_wf fs hwf
    rw [heq] at hok
    refine ⟨?_, ?_, ?_⟩
    · intro hnone
      rw [← Except.ok.inj hok, hnone]
      iterate 20 apply hasSubstr_append_left
      exact hasSubstr_append_right _ _ _ (hasSubstr_self _)
    · intro hnone
      rw [← Except.ok.inj hok, hnone]
      iterate 12 apply hasSubstr_append_left
      exact hasSubstr_append_right _ _ _ (hasSubstr_self _)
    · intro h1 h2 h3
      rw [← Except.ok.inj hok, applicantValue_default fs h1 h2 h3]
      iterate 15 apply hasSubstr_append_left
      exact hasSubstr_append_right _ _ _ (hasSubstr_self _)
  · intro fs s hwf hok
    obtain ⟨dfs, sp, pp, op, mp, hdev, hdev0, heq⟩ := formatEventItem_wf fs hwf
    rw [heq] at hok
    refine ⟨?_, ?_, ?_⟩
    · intro hnone
      constructor
      · rw [← Except.ok.inj hok, hdev0 hnone]
        iterate 15 apply hasSubstr_append_left
        exact hasSubstr_append_right _ _ _ (hasSubstr_self _)
      · rw [← Except.ok.inj hok, hdev0 hnone]
        iterate 12 apply hasSubstr_append_left
        exact hasSubstr_append_right _ _ _ (hasSubstr_self _)
    · intro hnone
      rw [← Except.ok.inj hok, hnone]
      iterate 9 apply hasSubstr_append_left
      exact hasSubstr_append_right _ _ _ (hasSubstr_self _)
    · intro hnone
      rw [← Except.ok.inj hok, hnone]
      iterate 6 apply hasSubstr_append_left
      exact hasSubstr_append_right _ _ _ (hasSubstr_self _)
  · intro items h
    apply formatItems_all_ok
    intro item hi
    have hw := h item hi
    cases item with
    | dict fs =>
      obtain ⟨dn, exp, heq, _⟩ := formatPmaItem_wf fs hw
      exact ⟨_, heq⟩
    | none => exact Bool.noConfusion hw
    | bool b => exact Bool.noConfusion hw
    | int n => exact Bool.noConfusion hw
    | str t => exact Bool.noConfusion hw
    | list xs => exact Bool.noConfusion hw
  · intro items h
    apply formatItems_all_ok
    intro item hi
    have hw := h item hi
    cases item with
    | dict fs =>
      obtain ⟨vm, st, heq⟩ := formatRecallItem_wf fs
      exact ⟨_, heq⟩
    | none => exact Bool.noConfusion hw
    | bool b => exact Bool.noConfusion hw
    | int n => exact Bool.noConfusion hw
    | str t => exact Bool.noConfusion hw
    | list xs => exact Bool.noConfusion hw
  · intro items h
    apply formatItems_all_ok
    intro item hi
    have hw := h item hi
    cases item with
    | dict fs =>
      obtain ⟨est, prod, heq⟩ := formatRegistrationItem_wf fs hw
      exact ⟨_, heq⟩
    | none => exact Bool.noConfusion hw
    | bool b => exact Bool.noConfusion hw
    | int n => exact Bool.noConfusion hw
    | str t => exact Bool.noConfusion hw
    | list xs => exact Bool.noConfusion hw
  · intro fs s hwf hok
    obtain ⟨dn, exp, heq, hdn0⟩ := formatPmaItem_wf fs hwf
    rw [heq] at hok
    refine ⟨?_, ?_, ?_⟩
    · intro hnone
      rw [← Except.ok.inj hok, hdn0 hnone]
      iterate 14 apply hasSubstr_append_left
      exact hasSubstr_append_right _ _ _ (hasSubstr_self _)
    · intro hnone
      rw [← Except.ok.inj hok, hnone]
      iterate 9 apply hasSubstr_append_left
      exact hasSubstr_append_right _ _ _ (hasSubstr_self _)
    · intro hnone
      rw [← Except.ok.inj hok, hnone]
      iterate 6 apply hasSubstr_append_left
      exact hasSubstr_append_right _ _ _ (hasSubstr_self _)
  · intro fs s hok
    obtain ⟨vm, st, heq⟩ := formatRecallItem_wf fs
    rw [heq] at hok
    refine ⟨?_, ?_, ?_, ?_⟩
    · intro hnone
      rw [← Except.ok.inj hok, hnone]
      iterate 16 apply hasSubstr_append_left
      exact hasSubstr_append_right _ _ _ (hasSubstr_self _)
    · intro hnone
      rw [← Except.ok.inj hok, hnone]
      iterate 13 apply hasSubstr_append_left
      exact hasSubstr_append_right _ _ _ (hasSubstr_self _)
    · intro hnone
      rw [← Except.ok.inj hok, hnone]
      iterate 10 apply hasSubstr_append_left
      exact hasSubstr_append_right _ _ _ (hasSubstr_self _)
    · intro hnone
      rw [← Except.ok.inj hok, hnone]
      iterate 4 apply hasSubstr_append_left
      exact hasSubstr_append_right _ _ _ (hasSubstr_self _)
  · intro fs s hwf hok
    obtain ⟨est, prod, heq⟩ := formatRegistrationItem_wf fs hwf
    rw [heq] at hok
    intro hnone
    rw [← Except.ok.inj hok, hnone]
    iterate 15 apply hasSubstr_append_left
    exact hasSubstr_append_right _ _ _ (hasSubstr_self _)

theorem C7_amended_formatters_witness :
    ∃ s, formatItems formatEventItem [PyVal.dict []] = Except.ok s :=
  C7_amended_formatters.2.1 [PyVal.dict []]
    (by
      intro item hi
      cases hi with
      | head => rfl
      | tail _ h2 => cases h2)

theorem scanDevice_eq_findD (text : String) (ks : List String) :
    scanDevice text ks
      = ((ks.find? fun d => hasSubstr text d).getD "medical device") := by
  induction ks with
  | nil => rfl
  | cons d rest ih =>
    unfold scanDevice
    cases h : hasSubstr text d with
    | true => simp [List.find?, h]
    | false => simp [List.find?, h, ih]

/-- C3: the regulatory-need decision is true iff some keyword of the fixed
set occurs (case-insensitively) in the concatenation of the utterance and
the gathered evidence; when it is positive, parameter extraction returns the
first matching entry of the fixed device-keyword list (in listed order,
defaulting to `"medical device"`) and picks the database by the fixed
priority order recall, then 510k/clearance, then pma/approval, then
adverse/event, else `"all"`; on "what is the latest recall on insulin pumps"
it yields query `"insulin pump"` and database `"recall"`. -/
theorem C3_fda_params :
    (∀ u results, needsFdaSearch u results = true ↔
       ∃ k ∈ fdaKeywords,
         hasSubstr (pyLower (combinedText u results)) k = true)
    ∧ (∀ u results, needsFdaSearch u results = true →
        (getFdaSearchParams u results).1
          = ((deviceKeywords.find? fun d =>
              hasSubstr (pyLower (combinedText u results)) d).getD
                "medical device"))
    ∧ (∀ u results, needsFdaSearch u results = true →
        (getFdaSearchParams u results).2
          = (if hasSubstr (pyLower (combinedText u results)) "recall" then
              "recall"
            else if hasSubstr (pyLower (combinedText u results)) "510k"
                || hasSubstr (pyLower (combinedText u results)) "clearance" then
              "510k"
            else if hasSubstr (pyLower (combinedText u results)) "pma"
                || hasSubstr (pyLower (combinedText u results)) "approval" then
              "pma"
            else if hasSubstr (pyLower (combinedText u results)) "adverse"
                || hasSubstr (pyLower (combinedText u results)) "event" then
              "event"
            else "all"))
    ∧ needsFdaSearch "what is the latest recall on insulin pumps" [] = true
    ∧ getFdaSearchParams "what is the latest recall on insulin pumps" []
        = ("insulin pump", "recall") := by
  refine ⟨?_, ?_, ?_, by decide, by decide⟩
  · intro u results
    unfold needsFdaSearch
    exact List.any_eq_true
  · intro u results _
    unfold getFdaSearchParams
    exact scanDevice_eq_findD _ _
  · intro u results _
    rfl

theorem C3_fda_params_witness :
    (getFdaSearchParams "any pacemaker clearance?" []).1
      = ((deviceKeywords.find? fun d =>
          hasSubstr (pyLower (combinedText "any pacemaker clearance?" [])) d).getD
            "medical device") :=
  C3_fda_params.2.1 "any pacemaker clearance?" [] (by decide)

theorem formatMultiResults_ok_ne_empty (d : List (String × PyVal)) (s : String)
    (h : formatMultiResults d = .ok s) : s ≠ "" := by
  unfold formatMultiResults at h
  split at h
  · cases h
    decide
  · rcases (bindOkIff _ _ _).mp h with ⟨body, _, hok⟩
    cases hok
    have h1 : ("# FDA Medical Device Database Results\n\n" : String) ≠ "" := by
      decide
    exact ne_empty_extend _ _ (ne_empty_extend _ _ h1)

theorem formatResults_ok_ne_empty (results : PyVal) (dbType : String)
    (s : String) (h : formatResults results dbType = .ok s) : s ≠ "" := by
  have h1 : ("No results found in the FDA " : String) ≠ "" := by decide
  have hmsg : noResultsFormatMsg dbType ≠ "" := by
    unfold noResultsFormatMsg
    exact ne_empty_extend _ _ (ne_empty_extend _ _ h1)
  unfold formatResults at h
  split at h
  · cases h
    exact hmsg
  · rcases (bindOkIff _ _ _).mp h with ⟨b, _, h⟩
    split at h
    · cases h
      exact hmsg
    · rcases (bindOkIff _ _ _).mp h with ⟨rv, _, h⟩
      split at h
      · cases h
        exact hmsg
      · rcases (bindOkIff _ _ _).mp h with ⟨body, _, hok⟩
        cases hok
        have h2 : ("## FDA " : String) ≠ "" := by decide
        exact ne_empty_extend _ _ (ne_empty_extend _ _ (ne_empty_extend _ _
          (ne_empty_extend _ _ (ne_empty_extend _ _ (ne_empty_extend _ _ h2)))))

theorem runE_ok_ne_empty (backend : String → String → Nat → Except String PyVal)
    (query db : String) (limit : Nat) (s : String)
    (h : runE backend query db limit = .ok s) : s ≠ "" := by
  unfold runE at h
  split at h
  · split at h
    · exact formatMultiResults_ok_ne_empty _ _ h
    · cases h
      unfold noResultsAllMsg
      have h1 : ("No results found in any FDA database for the query: " : String)
          ≠ "" := by decide
      exact ne_empty_extend _ _ (ne_empty_extend _ _ (ne_empty_extend _ _
        (ne_empty_extend _ _ h1)))
  · rcases (bindOkIff _ _ _).mp h with ⟨v, _, h⟩
    rcases (bindOkIff _ _ _).mp h with ⟨b, _, h⟩
    split at h
    · exact formatResults_ok_ne_empty _ _ _ h
    · cases h
      unfold noResultsSingleMsg
      have h1 : ("No results found in the FDA " : String) ≠ "" := by decide
      exact ne_empty_extend _ _ (ne_empty_extend _ _ (ne_empty_extend _ _
        (ne_empty_extend _ _ (ne_empty_extend _ _ (ne_empty_extend _ _ h1)))))

/-- C10: the regulatory step, when it executes, always contributes an
evidence block: `run` returns a non-empty string in every case, and the
orchestrator appends any truthy (non-empty) result under the
"FDA Database Results" label — even a zero-record query contributes a block
— unlike the document-search step, which silently drops outputs of at most
20 characters after stripping. -/
theorem C10_fda_block_always :
    (∀ backend query db limit, FDA.run backend query db limit ≠ "")
    ∧ (∀ f u results r, needsFdaSearch u results = true →
        f (getFdaSearchParams u results).1 (getFdaSearchParams u results).2
          = .ok r →
        r ≠ "" →
        fdaBlocks (some f) u results = ["## FDA Database Results\n" ++ r])
    ∧ (∀ backend u results, needsFdaSearch u results = true →
        fdaBlocks (some fun q db => .ok (FDA.run backend q db 5)) u results
          = ["## FDA Database Results\n"
              ++ FDA.run backend (getFdaSearchParams u results).1
                  (getFdaSearchParams u results).2 5])
    ∧ (∀ vt u r, vt u = .ok r → (pyStrip r).length ≤ 20 →
        vectorBlocks (some vt) u = []) := by
  have hrun : ∀ backend query db limit, FDA.run backend query db limit ≠ "" := by
    intro backend query db limit
    unfold FDA.run
    cases hE : runE backend query db limit with
    | ok s => exact runE_ok_ne_empty _ _ _ _ _ hE
    | error e => exact ne_empty_extend _ _ (by decide)
  have happend : ∀ f u results r, needsFdaSearch u results = true →
      f (getFdaSearchParams u results).1 (getFdaSearchParams u results).2
        = .ok r →
      r ≠ "" →
      fdaBlocks (some f) u results = ["## FDA Database Results\n" ++ r] := by
    intro f u results r hneed hok hr
    simp [fdaBlocks, hneed, hok, hr]
  refine ⟨hrun, happend, ?_, ?_⟩
  · intro backend u results hneed
    exact happend _ u results _ hneed rfl (hrun backend _ _ 5)
  · intro vt u r hok hlen
    simp [vectorBlocks, hok, Nat.not_lt.mpr hlen]

theorem C10_fda_block_always_witness :
    fdaBlocks (some fun q db => .ok (FDA.run (fun _ _ _ => .error "offline") q db 5))
        "any fda recalls?" []
      = ["## FDA Database Results\n"
          ++ FDA.run (fun _ _ _ => .error "offline")
              (getFdaSearchParams "any fda recalls?" []).1
              (getFdaSearchParams "any fda recalls?" []).2 5] :=
  C10_fda_block_always.2.2.1 (fun _ _ _ => .error "offline")
    "any fda recalls?" [] (by decide)

theorem C4_process_resilience_witness :
    gatherEvidence (some fun _ => .error "vs down")
        (some fun _ _ => .error "fda down") (some fun _ => .error "web down")
        "latest fda recall news"
      = ["**Vector Store Error:** " ++ "vs down",
         "**FDA Search Error:** " ++ "fda down",
         "**Web Search Error:** " ++ "web down"] :=
  C4_process_resilience.2.1 "vs down" "fda down" "web down"
    "latest fda recall news" (by decide) (by decide)
